import Mathlib

/-!
# Verification of the data-pipeline control plane

A shallow embedding, in Lean 4, of the core logic of the markets data
pipeline: the regulatory reporter's deterministic event-id generation and
retrying submission, the streaming bridge's bounded buffer and
backpressure, the batch orchestrator's archival phase and exit code, the
file validator's verified-write-then-delete, the rule evaluator, and the
schema-drift loader.  Python functions are translated into executable Lean
definitions; external collaborators (object store, warehouse, HTTP, regex
engine, wall clock) appear as explicit parameters.
-/

set_option maxRecDepth 10000

namespace Pipeline

/-! ## MD5 (RFC 1321), used by the reporter's event-id generation

`hashlib.md5(...).hexdigest()` is embedded as an executable MD5 over the
UTF-8 bytes of the input string.  Machine words are `Nat` reduced modulo
`2^32` explicitly. -/

namespace Md5

def M32 : Nat := 4294967296

def not32 (x : Nat) : Nat := x ^^^ (M32 - 1)

def rotl32 (x s : Nat) : Nat := ((x <<< s) % M32) ||| (x >>> (32 - s))

/-- The 64 round constants `K[i] = floor(2^32 * |sin(i+1)|)`. -/
def md5K : List Nat := [
  0xd76aa478, 0xe8c7b756, 0x242070db, 0xc1bdceee,
  0xf57c0faf, 0x4787c62a, 0xa8304613, 0xfd469501,
  0x698098d8, 0x8b44f7af, 0xffff5bb1, 0x895cd7be,
  0x6b901122, 0xfd987193, 0xa679438e, 0x49b40821,
  0xf61e2562, 0xc040b340, 0x265e5a51, 0xe9b6c7aa,
  0xd62f105d, 0x02441453, 0xd8a1e681, 0xe7d3fbc8,
  0x21e1cde6, 0xc33707d6, 0xf4d50d87, 0x455a14ed,
  0xa9e3e905, 0xfcefa3f8, 0x676f02d9, 0x8d2a4c8a,
  0xfffa3942, 0x8771f681, 0x6d9d6122, 0xfde5380c,
  0xa4beea44, 0x4bdecfa9, 0xf6bb4b60, 0xbebfbc70,
  0x289b7ec6, 0xeaa127fa, 0xd4ef3085, 0x04881d05,
  0xd9d4d039, 0xe6db99e5, 0x1fa27cf8, 0xc4ac5665,
  0xf4292244, 0x432aff97, 0xab9423a7, 0xfc93a039,
  0x655b59c3, 0x8f0ccc92, 0xffeff47d, 0x85845dd1,
  0x6fa87e4f, 0xfe2ce6e0, 0xa3014314, 0x4e0811a1,
  0xf7537e82, 0xbd3af235, 0x2ad7d2bb, 0xeb86d391]

/-- Per-round left-rotation amounts. -/
def md5S : List Nat := [
  7, 12, 17, 22, 7, 12, 17, 22, 7, 12, 17, 22, 7, 12, 17, 22,
  5,  9, 14, 20, 5,  9, 14, 20, 5,  9, 14, 20, 5,  9, 14, 20,
  4, 11, 16, 23, 4, 11, 16, 23, 4, 11, 16, 23, 4, 11, 16, 23,
  6, 10, 15, 21, 6, 10, 15, 21, 6, 10, 15, 21, 6, 10, 15, 21]

/-- UTF-8 encoding of one character (Python `str.encode()` byte order). -/
def utf8Bytes (c : Char) : List Nat :=
  let n := c.toNat
  if n < 128 then [n]
  else if n < 2048 then [192 + n / 64, 128 + n % 64]
  else if n < 65536 then [224 + n / 4096, 128 + (n / 64) % 64, 128 + n % 64]
  else [240 + n / 262144, 128 + (n / 4096) % 64, 128 + (n / 64) % 64, 128 + n % 64]

/-- UTF-8 bytes of a string, as `Nat`s. -/
def strBytes (s : String) : List Nat := s.data.flatMap utf8Bytes

/-- `n` bytes of `x`, little-endian. -/
def toLE (n x : Nat) : List Nat := (List.range n).map (fun i => (x >>> (8 * i)) % 256)

/-- Little-endian word from a byte list. -/
def fromLE (bs : List Nat) : Nat := bs.foldr (fun b acc => b + 256 * acc) 0

/-- MD5 padding: `0x80`, zeros to 56 mod 64, then the 64-bit LE bit length. -/
def padMessage (msg : List Nat) : List Nat :=
  let len := msg.length
  let z := (119 - len % 64) % 64
  msg ++ [128] ++ List.replicate z 0 ++ toLE 8 ((len * 8) % (2 ^ 64))

/-- The 16 message words of a 64-byte block. -/
def wordsOf (block : List Nat) : List Nat :=
  (List.range 16).map (fun i => fromLE ((block.drop (4 * i)).take 4))

/-- Round function and message index for round `i`. -/
def md5F (i b c d : Nat) : Nat × Nat :=
  if i < 16 then ((b &&& c) ||| (not32 b &&& d), i)
  else if i < 32 then ((d &&& b) ||| (not32 d &&& c), (5 * i + 1) % 16)
  else if i < 48 then (b ^^^ c ^^^ d, (3 * i + 5) % 16)
  else (c ^^^ (b ||| not32 d), (7 * i) % 16)

def md5Round (w : List Nat) (st : Nat × Nat × Nat × Nat) (i : Nat) : Nat × Nat × Nat × Nat :=
  let (a, b, c, d) := st
  let (f, g) := md5F i b c d
  let x := (a + f + md5K.getD i 0 + w.getD g 0) % M32
  (d, (b + rotl32 x (md5S.getD i 0)) % M32, b, c)

def processBlock (st : Nat × Nat × Nat × Nat) (block : List Nat) : Nat × Nat × Nat × Nat :=
  let w := wordsOf block
  let (a, b, c, d) := (List.range 64).foldl (md5Round w) st
  ((st.1 + a) % M32, (st.2.1 + b) % M32, (st.2.2.1 + c) % M32, (st.2.2.2 + d) % M32)

def md5Init : Nat × Nat × Nat × Nat := (0x67452301, 0xefcdab89, 0x98badcfe, 0x10325476)

def md5Digest (msg : List Nat) : Nat × Nat × Nat × Nat :=
  let padded := padMessage msg
  (List.range (padded.length / 64)).foldl
    (fun st i => processBlock st ((padded.drop (64 * i)).take 64)) md5Init

def hexDigit (n : Nat) : Char := if n < 10 then Char.ofNat (48 + n) else Char.ofNat (87 + n)

def byteHex (b : Nat) : String := String.mk [hexDigit (b / 16), hexDigit (b % 16)]

def wordHexLE (w : Nat) : String := String.join ((toLE 4 w).map byteHex)

/-- `hashlib.md5(s.encode()).hexdigest()`. -/
def md5Hex (s : String) : String :=
  let (a, b, c, d) := md5Digest (strBytes s)
  wordHexLE a ++ wordHexLE b ++ wordHexLE c ++ wordHexLE d

end Md5

/-! ## Regulatory reporter: deterministic event id
(`regulatory_reporter/main.py`, `RegulatoryReporter._generate_event_id`)

An event is a JSON object; the fields consulted by `_generate_event_id`
are modelled as optional strings (`None`/absent collapse to `Option.none`,
matching `dict.get`). -/

namespace Reporter

/-- Namespace for deterministic event ID generation (must match the dbt
macro); the fixed UUID string literal from `regulatory_reporter/main.py`. -/
def MARKETS_NAMESPACE : String := "a1b2c3d4-e5f6-7890-abcd-ef1234567890"

structure Event where
  domain : Option String := Option.none
  source_system : Option String := Option.none
  source_event_id : Option String := Option.none
  trade_id : Option String := Option.none

/-- The string hashed by `_generate_event_id`:
`f"{MARKETS_NAMESPACE}:event:{domain}:{source_system}:{source_event_id}"`
with `domain = event.get("domain", "markets")`,
`source_system = event.get("source_system", "UNKNOWN")`,
`source_event_id = event.get("source_event_id", event.get("trade_id", ""))`. -/
def idString (e : Event) : String :=
  let domain := e.domain.getD "markets"
  let source_system := e.source_system.getD "UNKNOWN"
  let source_event_id := e.source_event_id.getD (e.trade_id.getD "")
  MARKETS_NAMESPACE ++ ":event:" ++ domain ++ ":" ++ source_system ++ ":" ++ source_event_id

/-- `RegulatoryReporter._generate_event_id`. -/
def generate_event_id (e : Event) : String := Md5.md5Hex (idString e)

end Reporter

/-! ## Streaming bridge (`orchestrator/bridge.py`, `StreamingBridge`)

The bounded buffer is a `collections.deque` with `maxlen =
config.buffer_max_size`; the deque operations are embedded with Python's
eviction semantics (append discards from the opposite end when full).  The
two cooperating threads and the main loop are modelled as a step function
over an explicit state, driven by a list of actions (the scheduler and the
Kafka/PubSub environment are the nondeterminism). -/

namespace Bridge

structure BridgeConfig where
  buffer_max_size : Nat := 10000
  buffer_resume_size : Nat := 5000

structure BufferedMessage where
  kafka_partition : Nat
  kafka_offset : Nat
deriving DecidableEq, Repr

/-- `deque.append` with a `maxlen`: when full, the leftmost (oldest)
element is discarded. -/
def dequeAppend (maxlen : Nat) (buf : List α) (x : α) : List α :=
  let b := buf ++ [x]
  b.drop (b.length - maxlen)

/-- `deque.appendleft` with a `maxlen`: when full, the rightmost (newest)
element is discarded. -/
def dequeAppendLeft (maxlen : Nat) (buf : List α) (x : α) : List α :=
  (x :: buf).take maxlen

structure BridgeState where
  buffer : List BufferedMessage := []
  paused : Bool := false
  messages_received : Nat := 0
  polls : Nat := 0
  published : List (Nat × Nat) := []
  uncommitted_offsets : List (Nat × Nat) := []
  committed : List (Nat × Nat) := []
deriving DecidableEq, Repr

/-- `_consume_messages`, on a cycle where the poll yields a decodable
message `m`: if paused, do not poll (sleep); otherwise append to the tail
of the buffer and count the message as received. -/
def consumeMessage (cfg : BridgeConfig) (s : BridgeState) (m : BufferedMessage) : BridgeState :=
  if s.paused = true then s
  else
    { s with
      polls := s.polls + 1
      buffer := dequeAppend cfg.buffer_max_size s.buffer m
      messages_received := s.messages_received + 1 }

/-- A call issued to the Kafka consumer by `_check_backpressure`. -/
inductive ConsumerCall where
  | pause (partitions : List Nat)
  | resume (partitions : List Nat)
deriving DecidableEq, Repr

/-- `_check_backpressure`; `partitions` is the result of
`self._consumer.assignment()`. -/
def checkBackpressure (cfg : BridgeConfig) (s : BridgeState) (partitions : List Nat) :
    BridgeState × Option ConsumerCall :=
  if s.paused = false ∧ cfg.buffer_max_size ≤ s.buffer.length then
    if partitions ≠ [] then ({ s with paused := true }, some (.pause partitions))
    else (s, Option.none)
  else if s.paused = true ∧ s.buffer.length ≤ cfg.buffer_resume_size then
    if partitions ≠ [] then ({ s with paused := false }, some (.resume partitions))
    else (s, Option.none)
  else (s, Option.none)

/-- `_on_publish_complete` success path: record
`(topic, partition) → max(known, offset)` in the uncommitted-offsets map
(the sentinel start is `-1`, so an absent key is simply inserted). -/
def offsetMax : List (Nat × Nat) → Nat → Nat → List (Nat × Nat)
  | [], p, o => [(p, o)]
  | (q, c) :: rest, p, o =>
    if q = p then (if c < o then (q, o) :: rest else (q, c) :: rest)
    else (q, c) :: offsetMax rest p o

/-- Publisher loop step where the publish future succeeds: pop the head of
the buffer, record the publish and track its offset for commit. -/
def publishHeadOk (s : BridgeState) : BridgeState :=
  match s.buffer with
  | [] => s
  | m :: rest =>
    { s with
      buffer := rest
      published := (m.kafka_partition, m.kafka_offset) :: s.published
      uncommitted_offsets := offsetMax s.uncommitted_offsets m.kafka_partition m.kafka_offset }

/-- Publisher loop step where `publisher.publish` raises a transient
`GoogleAPICallError`: the popped message is re-inserted at the head
(`_publish_message` error path). -/
def publishHeadErr (cfg : BridgeConfig) (s : BridgeState) : BridgeState :=
  match s.buffer with
  | [] => s
  | m :: rest => { s with buffer := dequeAppendLeft cfg.buffer_max_size rest m }

/-- `_commit_offsets`: drain the map, committing `offset + 1` per
`(topic, partition)`. -/
def commitOffsets (s : BridgeState) : BridgeState :=
  { s with
    committed := s.uncommitted_offsets.map (fun pc => (pc.1, pc.2 + 1)) ++ s.committed
    uncommitted_offsets := [] }

inductive BridgeAct where
  | consume (m : BufferedMessage)
  | check (partitions : List Nat)
  | pubOk
  | pubErr
  | commit
deriving DecidableEq, Repr

def bridgeStep (cfg : BridgeConfig) (s : BridgeState) : BridgeAct → BridgeState
  | .consume m => consumeMessage cfg s m
  | .check parts => (checkBackpressure cfg s parts).1
  | .pubOk => publishHeadOk s
  | .pubErr => publishHeadErr cfg s
  | .commit => commitOffsets s

def bridgeRun (cfg : BridgeConfig) (acts : List BridgeAct) : BridgeState :=
  acts.foldl (bridgeStep cfg) {}

end Bridge

/-! ## Regulatory reporter: retrying submission
(`regulatory_reporter/main.py`, `RegulatoryReporter._submit_with_retry`
and `submit_event`)

The HTTP environment is a function from the 1-based attempt number to the
outcome of that POST.  Float delays are embedded as rationals (the code
only multiplies by the base and takes `min`, both exact). -/

namespace Reporter

structure RetryConfig where
  max_attempts : Nat := 5
  initial_delay_seconds : ℚ := 1
  max_delay_seconds : ℚ := 16
  exponential_base : ℚ := 2

inductive AttemptOutcome where
  | response (status : Nat) (body : String)
  | timeout (message : String)
  | requestError (message : String)
deriving DecidableEq, Repr

inductive AttemptClass where
  | success (body : String)
  | nonRetryable (err : String)
  | retryable (err : String)
deriving DecidableEq, Repr

/-- The classification performed inside the retry loop of
`_submit_with_retry`: status in `(200, 201, 202)` is success; `4xx`
other than 429 returns a non-retryable failure; any other status, and
`httpx` timeouts and request errors, fall through to the retry path. -/
def classifyAttempt : AttemptOutcome → AttemptClass
  | .response status body =>
    if status = 200 ∨ status = 201 ∨ status = 202 then .success body
    else if 400 ≤ status ∧ status < 500 ∧ status ≠ 429 then
      let t := body.take 200
      .nonRetryable s!"HTTP {status}: {t}"
    else
      let t := body.take 200
      .retryable s!"HTTP {status}: {t}"
  | .timeout m => .retryable s!"Timeout: {m}"
  | .requestError m => .retryable s!"Request error: {m}"

def retryableB (o : AttemptOutcome) : Bool :=
  match classifyAttempt o with
  | .retryable _ => true
  | _ => false

/-- The error text recorded for a retryable outcome. -/
def retryErrText (o : AttemptOutcome) : String :=
  match classifyAttempt o with
  | .retryable e => e
  | _ => ""

/-- Python `str(None)` vs a present string, for the exhaustion message. -/
def pyOptStr : Option String → String
  | some s => s
  | Option.none => "None"

/-- The value of `_submit_with_retry`, with bookkeeping: the `error`,
`retryable` and `attempts` keys of the returned dict, the number of POSTs
issued, and the list of `time.sleep` delays in order. -/
structure RetryOutcome where
  success : Bool
  error : Option String
  retryable : Option Bool
  attempts : Option Nat
  attemptsMade : Nat
  sleeps : List ℚ
deriving DecidableEq, Repr

/-- The retry loop of `_submit_with_retry`.  `remaining` counts the
attempts left (`max_attempts - made`); the sleep is skipped after the
final attempt, and on falling out of the loop the exhaustion dict is
returned. -/
def submitAttempts (cfg : RetryConfig) (env : Nat → AttemptOutcome) :
    Nat → Nat → ℚ → Option String → List ℚ → RetryOutcome
  | 0, made, _, lastError, sleeps =>
    let le := pyOptStr lastError
    { success := false
      error := some s!"Max retries exceeded. Last error: {le}"
      retryable := some true
      attempts := some cfg.max_attempts
      attemptsMade := made
      sleeps := sleeps.reverse }
  | remaining + 1, made, delay, _, sleeps =>
    match classifyAttempt (env (made + 1)) with
    | .success _ =>
      { success := true, error := Option.none, retryable := Option.none,
        attempts := Option.none, attemptsMade := made + 1, sleeps := sleeps.reverse }
    | .nonRetryable err =>
      { success := false, error := some err, retryable := some false,
        attempts := Option.none, attemptsMade := made + 1, sleeps := sleeps.reverse }
    | .retryable err =>
      if remaining = 0 then
        submitAttempts cfg env remaining (made + 1) delay (some err) sleeps
      else
        submitAttempts cfg env remaining (made + 1)
          (min (delay * cfg.exponential_base) cfg.max_delay_seconds) (some err)
          (delay :: sleeps)

/-- `RegulatoryReporter._submit_with_retry`. -/
def submitWithRetry (cfg : RetryConfig) (env : Nat → AttemptOutcome) : RetryOutcome :=
  submitAttempts cfg env cfg.max_attempts 0 cfg.initial_delay_seconds Option.none []

/-- The delay in force before attempt `k + 2` (`delay` starts at the
initial value and is updated by `min (delay * base) max` after each
sleep). -/
def delaySeq (cfg : RetryConfig) : Nat → ℚ
  | 0 => cfg.initial_delay_seconds
  | k + 1 => min (delaySeq cfg k * cfg.exponential_base) cfg.max_delay_seconds

/-- Observable outcome of `submit_event` relevant to C4: the response
status and the dead-letter row (failure reason, retry count, original
event payload) when one is appended. -/
structure SubmitOutcome (α : Type) where
  status : String
  dead_letter : Option (String × Nat × α)
deriving DecidableEq, Repr

/-- `RegulatoryReporter.submit_event`, for an event whose duplicate check
is given by `isDuplicate` (enrichment never fails: `_enrich_event` always
returns a dict). -/
def submit_event (cfg : RetryConfig) (env : Nat → AttemptOutcome)
    (isDuplicate : Bool) (event : α) : SubmitOutcome α :=
  if isDuplicate then { status := "duplicate", dead_letter := Option.none }
  else
    let r := submitWithRetry cfg env
    if r.success then { status := "success", dead_letter := Option.none }
    else
      { status := "error"
        dead_letter := some (r.error.getD "Unknown error",
          r.attempts.getD cfg.max_attempts, event) }

end Reporter

/-! ## Batch orchestrator: archival phase and exit code
(`orchestrator/archiver.py` `Archiver`, `orchestrator/main.py` `main`)

`main` constructs `Archiver(config, validation_result.validated_output_paths)`
(main.py:142), but `Archiver.__init__(self, config, run_start_time)` binds
that second argument as `run_start_time`; `_get_processed_files` then
calls `self.run_start_time.isoformat()` while building the query
parameters (outside its `try`), and the blob loop would compare
`blob.updated > self.run_start_time`.  Python dynamic typing is embedded
by a small value type with attribute access and comparison that can
raise. -/

namespace Orchestrator

/-- A Python value bound to `Archiver.run_start_time`: the datetime the
constructor expects, or the `set[str]` that `main` actually passes. -/
inductive PyVal where
  | datetime (t : Int)
  | strset (paths : List String)
deriving DecidableEq, Repr

inductive PyError where
  | attributeError (msg : String)
  | typeError (msg : String)
deriving DecidableEq, Repr

/-- `x.isoformat()`: defined on a datetime; an `AttributeError` on a
set. -/
def isoformat : PyVal → Except PyError String
  | .datetime t => .ok (toString t)
  | .strset _ => .error (.attributeError "set object has no attribute isoformat")

/-- `blob.updated > self.run_start_time`: datetime comparison, a
`TypeError` when the right operand is a set. -/
def pyGtUpdated (u : Int) : PyVal → Except PyError Bool
  | .datetime t => .ok (decide (t < u))
  | .strset _ => .error (.typeError "not supported between datetime and set")

structure Blob where
  name : String
  updated : Option Int
deriving DecidableEq, Repr

structure ArchiveConfig where
  staging_bucket : String
  archive_bucket : String
deriving DecidableEq, Repr

/-- The warehouse answer to the `validation_runs` query in
`_get_processed_files` (the query call is inside `try`). -/
inductive QueryResult where
  | rows (output_paths : List String)
  | failure (msg : String)
deriving DecidableEq, Repr

/-- `Archiver._get_processed_files`: the `isoformat()` call happens while
building the query parameters, before the `try`; a failing query is
caught and yields the empty set. -/
def getProcessedFiles (run_start_time : PyVal) (wh : QueryResult) :
    Except PyError (List String) := do
  let _ ← isoformat run_start_time
  match wh with
  | .rows ps => .ok ps
  | .failure _ => .ok []

/-- One pass of the blob loop of `Archiver.run` over the staging listing:
skips directories, skips blobs whose `gs://` path is not in the processed
set, skips blobs modified after the run start, and moves the rest
(rewrite into the archive bucket under the prefix, then delete).  Returns
`(files_moved, files_skipped, staging_after, archived_names)`. -/
def archiveLoop (cfg : ArchiveConfig) (run_start_time : PyVal)
    (processed : List String) ( archive_prefix : String) :
    List Blob → Except PyError (Nat × Nat × List Blob × List String)
  | [] => .ok (0, 0, [], [])
  | blob :: rest => do
    if blob.name.endsWith "/" then
      let (m, s, keep, arch) ← archiveLoop cfg run_start_time processed archive_prefix rest
      .ok (m, s, blob :: keep, arch)
    else if ("gs://" ++ cfg.staging_bucket ++ "/" ++ blob.name) ∉ processed then
      let (m, s, keep, arch) ← archiveLoop cfg run_start_time processed archive_prefix rest
      .ok (m, s + 1, blob :: keep, arch)
    else do
      let modifiedAfter ←
        match blob.updated with
        | some u => pyGtUpdated u run_start_time
        | Option.none => .ok false
      let (m, s, keep, arch) ← archiveLoop cfg run_start_time processed archive_prefix rest
      if modifiedAfter then .ok (m, s + 1, blob :: keep, arch)
      else .ok (m + 1, s, keep, ( archive_prefix ++ blob.name) :: arch)

/-- `Archiver.run` for a given staging listing, warehouse answer and
archive prefix (`YYYY-MM-DD/HHMM/` from the wall clock). -/
def archiver_run (cfg : ArchiveConfig) (run_start_time : PyVal)
    (staging : List Blob) (wh : QueryResult) ( archive_prefix : String) :
    Except PyError (Nat × Nat × List Blob × List String) := do
  let processed ← getProcessedFiles run_start_time wh
  archiveLoop cfg run_start_time processed archive_prefix staging

/-- The archival phase as `main` invokes it:
`Archiver(config, validation_result.validated_output_paths).run()`. -/
def mainArchivalPhase (cfg : ArchiveConfig) (validated_output_paths : List String)
    (staging : List Blob) (wh : QueryResult) ( archive_prefix : String) :
    Except PyError (Nat × Nat × List Blob × List String) :=
  archiver_run cfg (.strset validated_output_paths) staging wh archive_prefix

structure ValidationRunResult where
  files_passed : Nat
  files_failed : Nat
  total_rows : Nat
  validated_output_paths : List String
deriving DecidableEq, Repr

structure DbtRunResult where
  success : Bool
  models_run : Nat := 0
  models_failed : Nat := 0
deriving DecidableEq, Repr

/-- The exit code of `main` (`orchestrator/main.py`): validation, then
dbt, then archival (run regardless of `dbt_result.success`), then
`pipeline_success = dbt_result.success and files_failed == 0` and
`return 0 if pipeline_success else 1`; an exception reaching the outer
handler returns 1. -/
def mainRun (cfg : ArchiveConfig) (validation : ValidationRunResult)
    (dbt : DbtRunResult) (staging : List Blob) (wh : QueryResult)
    ( archive_prefix : String) : Nat :=
  match mainArchivalPhase cfg validation.validated_output_paths staging wh archive_prefix with
  | .error _ => 1
  | .ok _ =>
    let pipeline_success := dbt.success && validation.files_failed == 0
    if pipeline_success then 0 else 1

end Orchestrator

/-! ## File validation engine: staging verification and source delete
(`orchestrator/validator.py`, `Validator._validate_file` from the staging
upload onwards, `Validator._verify_staging_upload`, `Validator._fail_file`)

The object store is the environment: what the metadata reload of the
staging artifact observes, whether the source delete races (`NotFound`),
and whether the rewrite into the failed bucket succeeds. -/

namespace Validator

/-- The observation made by `blob.reload()` on the staging artifact. -/
inductive ReloadResult where
  | metadata (size : Option Nat)
  | notFound
  | otherError (msg : String)
deriving DecidableEq, Repr

/-- `Validator._verify_staging_upload`: false when the reload raises
`NotFound` or any other exception, or when `blob.size` is `None` or `0`;
the bytes-per-row check only logs a warning. -/
def verify_staging_upload : ReloadResult → Bool
  | .metadata (some sz) => !(sz == 0)
  | .metadata Option.none => false
  | .notFound => false
  | .otherError _ => false

structure FileEnv where
  reload : ReloadResult
  deleteRaisesNotFound : Bool := false
  failCopyOk : Bool := true
deriving DecidableEq, Repr

/-- Where the file's bytes live after `_validate_file` returns. -/
structure FileState where
  sourceInLanding : Bool
  failedCopy : Option String
  errorNote : Option String
deriving DecidableEq, Repr

structure FileValidation where
  passed : Bool
  failure_reason : Option String
  output_path : Option String
deriving DecidableEq, Repr

/-- `Validator._fail_file`: rewrite the source into the failed bucket
under `<name>_<timestamp>`, write the `.error.txt` note, and delete the
source from landing only after the successful copy; if the copy raises,
the source is left in place. -/
def fail_file (blobName reason ts : String) (copyOk : Bool) (st : FileState) :
    FileValidation × FileState :=
  let failedName := blobName ++ "_" ++ ts
  let result : FileValidation :=
    { passed := false, failure_reason := some reason,
      output_path := some ("gs://failed/" ++ failedName) }
  if copyOk then
    (result, { st with sourceInLanding := false, failedCopy := some failedName,
                       errorNote := some reason })
  else (result, st)

/-- The tail of `Validator._validate_file`, entered once the parsed rows
have been uploaded to staging at `outputName`: verify the staging
artifact, and only then delete the source (a `NotFound` raised by the
delete is caught and treated as success); a failed verification goes
through `_fail_file`. -/
def validate_file (stagingBucket blobName outputName ts : String) (env : FileEnv) :
    FileValidation × FileState :=
  let st0 : FileState :=
    { sourceInLanding := true, failedCopy := Option.none, errorNote := Option.none }
  if verify_staging_upload env.reload = false then
    fail_file blobName "Staging upload verification failed - source file retained" ts
      env.failCopyOk st0
  else
    ({ passed := true, failure_reason := Option.none,
       output_path := some ("gs://" ++ stagingBucket ++ "/" ++ outputName) },
      { st0 with sourceInLanding := false })

/-- `Validator.run`: `validated_output_paths` collects `output_path` of
passed results only. -/
def collectValidated (results : List FileValidation) : List String :=
  results.foldr
    (fun r acc =>
      if r.passed then
        (match r.output_path with
         | some p => p :: acc
         | Option.none => acc)
      else acc) []

end Validator

/-! ## Basic orchestrator: trailer row counts and schema drift
(`basic_orchestrator/orchestrator/validation.py` `process_with_trailer`,
`basic_orchestrator/orchestrator/main.py` `prepare_dataframe` /
`load_file`)

A Polars frame read with `infer_schema_length=0` is all-Utf8: named
columns and row-major cells, `Option.none` for nulls. -/

namespace BasicOrch

structure DataFrame where
  columns : List String
  rows : List (List (Option String))
deriving DecidableEq, Repr

structure ValidationResult where
  valid : Bool
  expected_rows : Option Int := Option.none
  actual_rows : Option Int := Option.none
  error : Option String := Option.none
deriving DecidableEq, Repr

/-- The whitespace stripped by Python `str.strip()` and `int()`. -/
def pySpaceChar (c : Char) : Bool :=
  c == ' ' || c == '\t' || c == '\n' || c == '\r' || c.toNat == 11 || c.toNat == 12

/-- `str.strip()` over the character list. -/
def pyStrip (cs : List Char) : List Char :=
  ((cs.dropWhile pySpaceChar).reverse.dropWhile pySpaceChar).reverse

/-- Python `int(s)` on a string: strip whitespace, optional sign, decimal
digits. -/
def pythonInt (s : String) : Option Int :=
  let digitsVal : List Char → Option Nat := fun cs =>
    if cs ≠ [] ∧ cs.all Char.isDigit then
      some (cs.foldl (fun a c => a * 10 + (c.toNat - 48)) 0)
    else Option.none
  match pyStrip s.data with
  | [] => Option.none
  | c :: cs =>
    if c = '-' then (digitsVal cs).map (fun n => -(n : Int))
    else if c = '+' then (digitsVal cs).map (fun n => (n : Int))
    else (digitsVal (c :: cs)).map (fun n => (n : Int))

/-- The body of the `try` in `process_with_trailer`: read the expected
count from the last row at the zero-based `row_count_column`, remove the
trailer row, compare.  Any raised exception is returned in `.error`. -/
def pwtCore (df : DataFrame) (c : Nat) : Except String (DataFrame × ValidationResult) :=
  match df.rows.getLast? with
  | Option.none => .error "index -1 is out of bounds"
  | some lastRow =>
    match lastRow[c]? with
    | Option.none => .error "index out of bounds"
    | some Option.none => .error "int argument must be a string, not NoneType"
    | some (some cellStr) =>
      match pythonInt cellStr with
      | Option.none => .error ("invalid literal for int: " ++ cellStr)
      | some expected =>
        let data : DataFrame := ⟨df.columns, df.rows.dropLast⟩
        let actual : Int := data.rows.length
        if actual = expected then
          .ok (data, { valid := true, expected_rows := some expected,
                       actual_rows := some actual })
        else
          .ok (data, { valid := false, expected_rows := some expected,
                       actual_rows := some actual,
                       error := some s!"Row count mismatch: expected {expected}, got {actual}" })

/-- `process_with_trailer`: on an exception, return the frame minus its
last row with a `Failed to process trailer` error. -/
def process_with_trailer (df : DataFrame) (row_count_column : Nat) :
    DataFrame × ValidationResult :=
  match pwtCore df row_count_column with
  | .ok r => r
  | .error e =>
    (⟨df.columns, df.rows.dropLast⟩,
      { valid := false, error := some ("Failed to process trailer: " ++ e) })

/-- Name-keyed cell access in a positional row. -/
def lookupCell (cols : List String) (row : List (Option String)) (c : String) :
    Option String :=
  match (cols.zip row).lookup c with
  | some v => v
  | Option.none => Option.none

/-- `df.select(cols)`. -/
def selectCols (df : DataFrame) (cols : List String) : DataFrame :=
  ⟨cols, df.rows.map (fun r => cols.map (lookupCell df.columns r))⟩

/-- `df.with_columns(pl.lit(v).cast(pl.Utf8).alias(name))`: overwrite in
place when the column exists, else append. -/
def withColumnConst (df : DataFrame) (name : String) (v : Option String) : DataFrame :=
  if name ∈ df.columns then
    ⟨df.columns,
      df.rows.map (fun r => (df.columns.zip r).map (fun p => if p.1 = name then v else p.2))⟩
  else ⟨df.columns ++ [name], df.rows.map (fun r => r ++ [v])⟩

/-- `df.with_columns(pl.Series(name, vals))` (one value per row). -/
def withColumnSeries (df : DataFrame) (name : String) (vals : List (Option String)) :
    DataFrame :=
  if name ∈ df.columns then
    ⟨df.columns,
      (df.rows.zip vals).map
        (fun rv => (df.columns.zip rv.1).map (fun p => if p.1 = name then rv.2 else p.2))⟩
  else ⟨df.columns ++ [name], (df.rows.zip vals).map (fun rv => rv.1 ++ [rv.2])⟩

/-- `json.dumps` of a string (escaping of exotic characters is the
standard library's business; data cells here are plain). -/
def jsonStr (s : String) : String := "\"" ++ s ++ "\""

/-- `json.dumps(row)` for a dict of Utf8 cells, with the default
separators. -/
def jsonOfPairs (pairs : List (String × Option String)) : String :=
  "\x7b" ++
    String.intercalate ", "
      (pairs.map (fun p =>
        jsonStr p.1 ++ ": " ++ (match p.2 with | some v => jsonStr v | Option.none => "null"))) ++
    "\x7d"

/-- The `_extra` value of one row: the JSON object of the row's `new`
fields, or NULL when there are none. -/
def extraVal (df : DataFrame) (extra : List String) (r : List (Option String)) :
    Option String :=
  if extra = [] then Option.none
  else some (jsonOfPairs (extra.map (fun c => (c, lookupCell df.columns r c))))

/-- `known` of `prepare_dataframe`: batch columns also in the table. -/
def knownCols (df : DataFrame) (existing : List String) : List String :=
  df.columns.filter (fun c => c ∈ existing)

/-- `extra` of `prepare_dataframe`: batch columns new to the table. -/
def extraCols (df : DataFrame) (existing : List String) : List String :=
  df.columns.filter (fun c => c ∉ existing)

/-- `prepare_dataframe`. -/
def prepare_dataframe (df : DataFrame) (existing_columns : Option (List String)) :
    DataFrame :=
  match existing_columns with
  | Option.none => withColumnConst df "_extra" Option.none
  | some existing =>
    let known := knownCols df existing
    let extra := extraCols df existing
    let df1 :=
      if extra ≠ [] then
        withColumnSeries (selectCols df known) "_extra"
          (df.rows.map (fun r => extraVal df extra r))
      else withColumnConst (selectCols df known) "_extra" Option.none
    existing.foldl
      (fun d col => if col ∈ d.columns then d else withColumnConst d col Option.none) df1

/-- `df.with_columns(pl.lit(load_id).alias("_load_id"))` in `load_file`. -/
def tagLoadId (df : DataFrame) (load_id : String) : DataFrame :=
  withColumnConst df "_load_id" (some load_id)

/-- The columns appended by the missing-column loop, given the columns
already present. -/
def addedCols : List String → List String → List String
  | [], _ => []
  | c :: rest, seen =>
    if c ∈ seen then addedCols rest seen else c :: addedCols rest (seen ++ [c])

/-- The table columns absent from the batch, appended by the
missing-column loop (in table order). -/
def missingColsOf (df : DataFrame) (existing : List String) : List String :=
  addedCols existing (knownCols df existing ++ ["_extra"])

/-- The values of one named column, top to bottom. -/
def columnVals (df : DataFrame) (c : String) : List (Option String) :=
  df.rows.map (fun r => lookupCell df.columns r c)

inductive LoadOutcome where
  | failedMoved (error : String)
  | loaded (df : DataFrame) (metadataRowCount : Nat)
deriving DecidableEq, Repr

/-- The slice of `load_file` for a source configured with a trailer
control record and no go file: trailer validation (mismatch moves the
file to the failed area and returns before any load), then schema-drift
preparation, `_load_id` tagging, the load, and the metadata row whose
`row_count` is the loaded frame's height. -/
def load_file_trailer (df : DataFrame) (row_count_column : Nat)
    (existing_columns : Option (List String)) (load_id : String) : LoadOutcome :=
  let dv := process_with_trailer df row_count_column
  if dv.2.valid = false then
    .failedMoved ("Trailer validation: " ++ dv.2.error.getD "None")
  else
    let prepared := prepare_dataframe dv.1 existing_columns
    let tagged := tagLoadId prepared load_id
    .loaded tagged tagged.rows.length

end BasicOrch

/-! ## Rule evaluator (`orchestrator/rules.py` `RuleEvaluator`,
`orchestrator/parsers.py` `Parser._apply_validation_rules`)

Row values are the Python runtime values the parsers produce.  The seven
anchored case-insensitive regular expressions of `RuleEvaluator.PATTERNS`
are implemented as structural matchers over the rule string (the patterns
are simple enough that maximal-munch scanning is equivalent).  The user
regex inside a `matches` rule (`re.match`) and ISO timestamp parsing
(`datetime.fromisoformat`, applied after the `Z` replacement) are
standard-library collaborators and appear as oracle parameters; the wall
clock is a parameter.  Error message texts follow the code's f-strings,
with Python renderings of embedded values approximated where Python
renders whole containers. -/

namespace Rules

inductive Value where
  | none
  | str (s : String)
  | int (i : Int)
  | float (q : ℚ)
  | dec (q : ℚ)
  | bool (b : Bool)
  | timestamp (t : Int)
  | date (d : Int)
deriving DecidableEq, Repr

/-- A parsed row: field name to runtime value (`row.get(field)` returns
`None` both for a missing key and a null value). -/
def Row := List (String × Value)

def rowGet (row : Row) (f : String) : Value :=
  match (show List (String × Value) from row).lookup f with
  | some v => v
  | Option.none => Value.none

/-- `\w` (ASCII). -/
def isWordChar (c : Char) : Bool := c.isAlphanum || c == '_'

def spanWord (cs : List Char) : List Char × List Char :=
  (cs.takeWhile isWordChar, cs.dropWhile isWordChar)

def dropSpaces (cs : List Char) : List Char := cs.dropWhile BasicOrch.pySpaceChar

/-- `\s+`: at least one whitespace character. -/
def dropSpaces1 (cs : List Char) : Option (List Char) :=
  match cs with
  | c :: rest => if BasicOrch.pySpaceChar c then some (dropSpaces rest) else Option.none
  | [] => Option.none

/-- Case-insensitive comparison of a token with a literal. -/
def lowerEq (tok : List Char) (kw : String) : Bool :=
  tok.map Char.toLower == kw.data

/-- `\s+<kw>` with `kw` matched case-insensitively as a word token. -/
def matchKw (kw : String) (cs : List Char) : Option (List Char) :=
  match dropSpaces1 cs with
  | some r =>
    let (w, r2) := spanWord r
    if lowerEq w kw then some r2 else Option.none
  | Option.none => Option.none

/-- `^(\w+)\s+is\s+not\s+null$`. -/
def matchIsNotNull (cs : List Char) : Option String :=
  let (f, r) := spanWord cs
  if f.isEmpty then Option.none
  else
    match matchKw "is" r with
    | some r2 =>
      match matchKw "not" r2 with
      | some r3 =>
        match matchKw "null" r3 with
        | some r4 => if r4.isEmpty then some (String.mk f) else Option.none
        | Option.none => Option.none
      | Option.none => Option.none
    | Option.none => Option.none

/-- `^(\w+)\s+is\s+null$`. -/
def matchIsNull (cs : List Char) : Option String :=
  let (f, r) := spanWord cs
  if f.isEmpty then Option.none
  else
    match matchKw "is" r with
    | some r2 =>
      match matchKw "null" r2 with
      | some r3 => if r3.isEmpty then some (String.mk f) else Option.none
      | Option.none => Option.none
    | Option.none => Option.none

/-- After a keyword, `\s+\(([^)]+)\)$`. -/
def matchParenList (cs : List Char) : Option String :=
  match dropSpaces1 cs with
  | some r =>
    match r with
    | '(' :: r2 =>
      let inner := r2.takeWhile (fun c => c ≠ ')')
      let rest := r2.dropWhile (fun c => c ≠ ')')
      if inner.isEmpty then Option.none
      else match rest with
        | [')'] => some (String.mk inner)
        | _ => Option.none
    | _ => Option.none
  | Option.none => Option.none

/-- `^(\w+)\s+in\s+\(([^)]+)\)$`. -/
def matchIn (cs : List Char) : Option (String × String) :=
  let (f, r) := spanWord cs
  if f.isEmpty then Option.none
  else
    match matchKw "in" r with
    | some r2 =>
      match matchParenList r2 with
      | some inner => some (String.mk f, inner)
      | Option.none => Option.none
    | Option.none => Option.none

/-- `^(\w+)\s+not\s+in\s+\(([^)]+)\)$`. -/
def matchNotIn (cs : List Char) : Option (String × String) :=
  let (f, r) := spanWord cs
  if f.isEmpty then Option.none
  else
    match matchKw "not" r with
    | some r2 =>
      match matchKw "in" r2 with
      | some r3 =>
        match matchParenList r3 with
        | some inner => some (String.mk f, inner)
        | Option.none => Option.none
      | Option.none => Option.none
    | Option.none => Option.none

def squote : Char := Char.ofNat 39

/-- `^(\w+)\s+matches\s+'([^']+)'$`. -/
def matchMatches (cs : List Char) : Option (String × String) :=
  let (f, r) := spanWord cs
  if f.isEmpty then Option.none
  else
    match matchKw "matches" r with
    | some r2 =>
      match dropSpaces1 r2 with
      | some r3 =>
        match r3 with
        | q :: r4 =>
          if q = squote then
            let inner := r4.takeWhile (fun c => c ≠ squote)
            let rest := r4.dropWhile (fun c => c ≠ squote)
            if inner.isEmpty then Option.none
            else if rest = [squote] then some (String.mk f, String.mk inner)
            else Option.none
          else Option.none
        | [] => Option.none
      | Option.none => Option.none
    | Option.none => Option.none

/-- `(<=?|>=?)`, in the regex alternation order. -/
def readOpLtGt (cs : List Char) : Option (String × List Char) :=
  match cs with
  | '<' :: '=' :: r => some ("<=", r)
  | '<' :: r => some ("<", r)
  | '>' :: '=' :: r => some (">=", r)
  | '>' :: r => some (">", r)
  | _ => Option.none

/-- `(<=?|>=?|!=|=)`. -/
def readOpCmp (cs : List Char) : Option (String × List Char) :=
  match cs with
  | '<' :: '=' :: r => some ("<=", r)
  | '<' :: r => some ("<", r)
  | '>' :: '=' :: r => some (">=", r)
  | '>' :: r => some (">", r)
  | '!' :: '=' :: r => some ("!=", r)
  | '=' :: r => some ("=", r)
  | _ => Option.none

/-- `^(\w+)\s*(<=?|>=?)\s*current_timestamp\(\)$`. -/
def matchTsCompare (cs : List Char) : Option (String × String) :=
  let (f, r) := spanWord cs
  if f.isEmpty then Option.none
  else
    match readOpLtGt (dropSpaces r) with
    | some (op, r2) =>
      if lowerEq (dropSpaces r2) "current_timestamp()" then some (String.mk f, op)
      else Option.none
    | Option.none => Option.none

/-- `^(\w+)\s*(<=?|>=?|!=|=)\s*(.+)$`. -/
def matchComparison (cs : List Char) : Option (String × String × String) :=
  let (f, r) := spanWord cs
  if f.isEmpty then Option.none
  else
    match readOpCmp (dropSpaces r) with
    | some (op, r2) =>
      let r3 := dropSpaces r2
      if r3.isEmpty then Option.none else some (String.mk f, op, String.mk r3)
    | Option.none => Option.none

def digitsNat (cs : List Char) : Nat :=
  cs.foldl (fun a c => a * 10 + (c.toNat - 48)) 0

/-- Python `float(s)` on decimal/scientific notation. -/
def pythonFloat (s : String) : Option ℚ :=
  let cs := BasicOrch.pyStrip s.data
  let signed : ℚ × List Char :=
    match cs with
    | '-' :: r => (-1, r)
    | '+' :: r => (1, r)
    | r => (1, r)
  let sign := signed.1
  let cs1 := signed.2
  let ip := cs1.takeWhile Char.isDigit
  let cs2 := cs1.dropWhile Char.isDigit
  let fracPart : Option (List Char) × List Char :=
    match cs2 with
    | '.' :: r => (some (r.takeWhile Char.isDigit), r.dropWhile Char.isDigit)
    | r => (Option.none, r)
  let frac := fracPart.1
  let cs3 := fracPart.2
  if ip.isEmpty ∧ (frac.getD []).isEmpty then Option.none
  else
    let mant : ℚ := sign *
      ((digitsNat ip : ℚ) + (digitsNat (frac.getD []) : ℚ) / (10 : ℚ) ^ (frac.getD []).length)
    match cs3 with
    | [] => some mant
    | 'e' :: r => pythonFloatExp mant r
    | 'E' :: r => pythonFloatExp mant r
    | _ => Option.none
where
  pythonFloatExp (mant : ℚ) (r : List Char) : Option ℚ :=
    let signed : Int × List Char :=
      match r with
      | '-' :: rr => (-1, rr)
      | '+' :: rr => (1, rr)
      | rr => (1, rr)
    let ed := signed.2.takeWhile Char.isDigit
    let rest := signed.2.dropWhile Char.isDigit
    if ed.isEmpty ∨ rest ≠ [] then Option.none
    else some (mant * (10 : ℚ) ^ (signed.1 * digitsNat ed))

/-- Comparison operators of `_get_operator` (`operator.lt` etc.); an
unknown key raises `KeyError`. -/
inductive CmpOp where
  | lt | le | gt | ge | eq | ne
deriving DecidableEq, Repr

def getOperator : String → Option CmpOp
  | "<" => some .lt
  | "<=" => some .le
  | ">" => some .gt
  | ">=" => some .ge
  | "=" => some .eq
  | "!=" => some .ne
  | _ => Option.none

def applyOpInt (op : CmpOp) (a b : Int) : Bool :=
  match op with
  | .lt => a < b
  | .le => a ≤ b
  | .gt => b < a
  | .ge => b ≤ a
  | .eq => a == b
  | .ne => a != b

def applyOpRat (op : CmpOp) (a b : ℚ) : Bool :=
  match op with
  | .lt => a < b
  | .le => a ≤ b
  | .gt => b < a
  | .ge => b ≤ a
  | .eq => a == b
  | .ne => a != b

def applyOpStr (op : CmpOp) (a b : String) : Bool :=
  match op with
  | .lt => a < b
  | .le => a < b || a == b
  | .gt => b < a
  | .ge => b < a || a == b
  | .eq => a == b
  | .ne => a != b

/-- Python's numeric tower as seen by comparisons: `int`, `float`,
`Decimal` and `bool` are mutually comparable. -/
def numVal : Value → Option ℚ
  | .int i => some (i : ℚ)
  | .float q => some q
  | .dec q => some q
  | .bool b => some (if b then 1 else 0)
  | _ => Option.none

/-- Python `==` on row values: numerics compare numerically, same-type
values structurally, anything else is unequal (no exception). -/
def pyEq (a b : Value) : Bool :=
  match a, b with
  | .int i, .int j => i == j
  | _, _ =>
    match numVal a, numVal b with
    | some x, some y => x == y
    | _, _ =>
      match a, b with
      | .none, .none => true
      | .str s, .str t => s == t
      | .timestamp t, .timestamp u => t == u
      | .date d, .date e => d == e
      | _, _ => false

/-- A Python comparison `op_func(a, b)`: ordering across unrelated types
raises `TypeError`; `==`/`!=` never raise. -/
def pyCompare (op : CmpOp) (a b : Value) : Except String Bool :=
  match a, b with
  | .int i, .int j => .ok (applyOpInt op i j)
  | _, _ =>
    match numVal a, numVal b with
    | some x, some y => .ok (applyOpRat op x y)
    | _, _ =>
      match a, b with
      | .str s, .str t => .ok (applyOpStr op s t)
      | .timestamp t, .timestamp u => .ok (applyOpInt op t u)
      | .date d, .date e => .ok (applyOpInt op d e)
      | _, _ =>
        match op with
        | .eq => .ok false
        | .ne => .ok true
        | _ => .error "TypeError: unorderable types"

def isQuoted (cs : List Char) (q : Char) : Bool :=
  cs.head? == some q && cs.getLast? == some q

/-- `_parse_value_list`: split on commas, strip, unquote or parse
numerically (`float` when the part contains a dot, else `int`), falling
back to the raw part. -/
def parse_value_list (values_str : String) : List Value :=
  (splitOnComma values_str.data).map (fun part =>
    let p := BasicOrch.pyStrip part
    if isQuoted p squote || isQuoted p '"' then Value.str (String.mk ((p.drop 1).dropLast))
    else if p.contains '.' then
      match pythonFloat (String.mk p) with
      | some q => Value.float q
      | Option.none => Value.str (String.mk p)
    else
      match BasicOrch.pythonInt (String.mk p) with
      | some n => Value.int n
      | Option.none => Value.str (String.mk p))
where
  splitOnComma (cs : List Char) : List (List Char) :=
    cs.foldr
      (fun c acc =>
        match acc with
        | g :: gs => if c = ',' then [] :: g :: gs else (c :: g) :: gs
        | [] => [[c]]) [[]]

/-- `_parse_literal`: strip, unquote, else parse to the runtime type of
the row value (`bool` and date/time types are not `int`/`float`/`Decimal`,
so they fall through to the raw string); a failed numeric parse raises
`ValueError`. -/
def parse_literal (value_str : String) (target : Value) : Except String Value :=
  let p := BasicOrch.pyStrip value_str.data
  let vs := String.mk p
  if isQuoted p squote || isQuoted p '"' then .ok (.str (String.mk ((p.drop 1).dropLast)))
  else
    match target with
    | .int _ =>
      match BasicOrch.pythonInt vs with
      | some n => .ok (.int n)
      | Option.none => .error ("invalid literal for int with base 10: " ++ vs)
    | .float _ =>
      match pythonFloat vs with
      | some q => .ok (.float q)
      | Option.none => .error ("could not convert string to float: " ++ vs)
    | .dec _ =>
      match pythonFloat vs with
      | some q => .ok (.dec q)
      | Option.none => .error ("invalid decimal literal: " ++ vs)
    | _ => .ok (.str vs)

structure RuleResult where
  passed : Bool
  rule : String
  message : Option String := Option.none
deriving DecidableEq, Repr

/-- External collaborators of the evaluator: `re.match(pattern, str(v))`,
`datetime.fromisoformat(s.replace("Z", "+00:00"))` (`Option.none` when it
raises), and the wall clock `datetime.now(timezone.utc)`. -/
structure EvalEnv where
  reMatch : String → String → Bool
  fromIso : String → Option Int
  now : Int

/-- `str(value)` as fed to `re.match` (Python float repr approximated). -/
def pyStr : Value → String
  | .none => "None"
  | .str s => s
  | .int i => toString i
  | .float q => toString q
  | .dec q => toString q
  | .bool b => if b then "True" else "False"
  | .timestamp t => toString t
  | .date d => toString d

def sq : String := String.mk [squote]

/-- `str.strip()`. -/
def stripStr (s : String) : String := String.mk (BasicOrch.pyStrip s.data)

/-- `_eval_is_not_null`: `(passed, message)`. -/
def eval_is_not_null (row : Row) (n : Nat) (field : String) : Bool × Option String :=
  let value := rowGet row field
  let passed := !(value == Value.none) && !(pyEq value (.str ""))
  (passed, if passed then Option.none
    else some ("Field " ++ sq ++ field ++ sq ++ " is null at row " ++ toString n))

/-- `_eval_is_null`. -/
def eval_is_null (row : Row) (n : Nat) (field : String) : Bool × Option String :=
  let value := rowGet row field
  let passed := (value == Value.none) || pyEq value (.str "")
  (passed, if passed then Option.none
    else some ("Field " ++ sq ++ field ++ sq ++ " is not null at row " ++ toString n))

/-- `_eval_in`. -/
def eval_in (row : Row) (n : Nat) (field values_str : String) : Bool × Option String :=
  let allowed := parse_value_list values_str
  let value := rowGet row field
  let passed := allowed.any (fun a => pyEq value a)
  (passed, if passed then Option.none
    else some ("Field " ++ sq ++ field ++ sq ++ " value " ++ sq ++ pyStr value ++ sq ++
      " not in the allowed set at row " ++ toString n))

/-- `_eval_not_in`. -/
def eval_not_in (row : Row) (n : Nat) (field values_str : String) : Bool × Option String :=
  let disallowed := parse_value_list values_str
  let value := rowGet row field
  let passed := !(disallowed.any (fun a => pyEq value a))
  (passed, if passed then Option.none
    else some ("Field " ++ sq ++ field ++ sq ++ " value " ++ sq ++ pyStr value ++ sq ++
      " is disallowed at row " ++ toString n))

/-- `_eval_matches`: `None` fails; otherwise `re.match` on `str(value)`,
anchored at the start. -/
def eval_matches (env : EvalEnv) (row : Row) (n : Nat) (field pattern : String) :
    Bool × Option String :=
  let value := rowGet row field
  let passed := if value == Value.none then false else env.reMatch pattern (pyStr value)
  (passed, if passed then Option.none
    else some ("Field " ++ sq ++ field ++ sq ++ " value " ++ sq ++ pyStr value ++ sq ++
      " doesnt match pattern at row " ++ toString n))

/-- `_eval_timestamp_compare`: `None` passes (nullability handles it);
a string value goes through `fromisoformat`; the comparison with `now`
may raise (caught by `evaluate`). -/
def eval_timestamp_compare (env : EvalEnv) (row : Row) (n : Nat) (field opStr : String) :
    Except String (Bool × Option String) := do
  let value := rowGet row field
  if value == Value.none then
    return (true, Option.none)
  let value ←
    match value with
    | .str s =>
      match env.fromIso s with
      | some t => Except.ok (Value.timestamp t)
      | Option.none => Except.error ("Invalid isoformat string: " ++ sq ++ s ++ sq)
    | v => Except.ok v
  let op ←
    match getOperator opStr with
    | some o => Except.ok o
    | Option.none => Except.error ("KeyError: " ++ opStr)
  let passed ← pyCompare op value (.timestamp env.now)
  return (passed, if passed then Option.none
    else some ("Field " ++ sq ++ field ++ sq ++ " timestamp check failed at row " ++
      toString n))

/-- `_eval_comparison`: `None` passes; the literal is parsed to the row
value's runtime type (`ValueError` propagates to `evaluate`); only
`TypeError` from the operator application is caught locally, yielding
`passed = False`. -/
def eval_comparison (row : Row) (n : Nat)
    (field opStr value_str : String) : Except String (Bool × Option String) := do
  let value := rowGet row field
  if value == Value.none then
    return (true, Option.none)
  let compare_value ← parse_literal value_str value
  let op ←
    match getOperator opStr with
    | some o => Except.ok o
    | Option.none => Except.error ("KeyError: " ++ opStr)
  let passed :=
    match pyCompare op value compare_value with
    | .ok b => b
    | .error _ => false
  return (passed, if passed then Option.none
    else some ("Field " ++ sq ++ field ++ sq ++ " comparison " ++ sq ++ pyStr value ++
      " " ++ opStr ++ " " ++ pyStr compare_value ++ sq ++ " failed at row " ++ toString n))

/-- The `try`/`except` around a method call in `evaluate`: any exception
becomes a failed result with a `Rule evaluation error` message. -/
def runGuard (n : Nat) :
    Except String (Bool × Option String) → Bool × Option String
  | .ok r => r
  | .error e => (false, some ("Rule evaluation error at row " ++ toString n ++ ": " ++ e))

/-- `RuleEvaluator.evaluate`: strip the rule, try the patterns in
`PATTERNS` order, dispatch to the matching method; unrecognised syntax
passes with a warning message. -/
def evaluate (env : EvalEnv) (rule : String) (row : Row) (row_num : Nat) : RuleResult :=
  let rule := stripStr rule
  let cs := rule.data
  let pm : Bool × Option String :=
    match matchIsNotNull cs with
    | some f => eval_is_not_null row row_num f
    | Option.none =>
    match matchIsNull cs with
    | some f => eval_is_null row row_num f
    | Option.none =>
    match matchIn cs with
    | some fv => eval_in row row_num fv.1 fv.2
    | Option.none =>
    match matchNotIn cs with
    | some fv => eval_not_in row row_num fv.1 fv.2
    | Option.none =>
    match matchMatches cs with
    | some fp => eval_matches env row row_num fp.1 fp.2
    | Option.none =>
    match matchTsCompare cs with
    | some fo => runGuard row_num (eval_timestamp_compare env row row_num fo.1 fo.2)
    | Option.none =>
    match matchComparison cs with
    | some fov => runGuard row_num (eval_comparison row row_num fov.1 fov.2.1 fov.2.2)
    | Option.none => (true, some ("Unrecognised rule syntax: " ++ rule))
  ⟨pm.1, rule, pm.2⟩

/-- Whether any of the seven patterns recognises the (stripped) rule. -/
def matchesAnyPattern (rule : String) : Bool :=
  (matchIsNotNull rule.data).isSome || (matchIsNull rule.data).isSome ||
  (matchIn rule.data).isSome || (matchNotIn rule.data).isSome ||
  (matchMatches rule.data).isSome || (matchTsCompare rule.data).isSome ||
  (matchComparison rule.data).isSome

/-- One entry of `validation.row_level`: a dict with optional `rule` and
`severity` keys (`dict.get`). -/
structure RuleSpec where
  rule : Option String := Option.none
  severity : Option String := Option.none
deriving DecidableEq, Repr

/-- `RuleEvaluator.evaluate_all`: the failed results, in rule order. -/
def evaluate_all (env : EvalEnv) (rules : List RuleSpec) (row : Row) (row_num : Nat) :
    List RuleResult :=
  (rules.map (fun rs => evaluate env (rs.rule.getD "") row row_num)).filter
    (fun r => !r.passed)

/-- `Parser._apply_validation_rules`: `(passed, failure_reason)`.  A
failure is error-severity when some spec entry with `severity = "error"`
has a `rule` string equal to the failure's (stripped) rule string. -/
def apply_validation_rules (env : EvalEnv) (row_rules : List RuleSpec) (row : Row)
    (row_num : Nat) : Bool × Option String :=
  if row_rules.isEmpty then (true, Option.none)
  else
    let failures := evaluate_all env row_rules row row_num
    let error_failures := failures.filter
      (fun f => row_rules.any (fun r => r.severity == some "error" && r.rule == some f.rule))
    if error_failures ≠ [] then
      (false, some (String.intercalate "; " (error_failures.filterMap (fun f => f.message))))
    else (true, Option.none)

end Rules

end Pipeline

/-! ## Theorems -/

namespace Pipeline

namespace Md5

/-- RFC 1321 test vector: the empty message. -/
theorem md5Hex_empty : md5Hex "" = "d41d8cd98f00b204e9800998ecf8427e" := by decide

/-- RFC 1321 test vector: "abc". -/
theorem md5Hex_abc : md5Hex "abc" = "900150983cd24fb0d6963f7d28e17f72" := by decide

end Md5

namespace Bridge

theorem bridgeStep_buffer_le (cfg : BridgeConfig) (s : BridgeState) (a : BridgeAct)
    (h : s.buffer.length ≤ cfg.buffer_max_size) :
    (bridgeStep cfg s a).buffer.length ≤ cfg.buffer_max_size := by
  cases a with
  | consume m =>
    simp only [bridgeStep, consumeMessage]
    split
    · exact h
    · simp only [dequeAppend, List.length_drop, List.length_append, List.length_cons]
      omega
  | check parts =>
    simp only [bridgeStep, checkBackpressure]
    split
    · split <;> simpa using h
    · split
      · split <;> simpa using h
      · exact h
  | pubOk =>
    simp only [bridgeStep, publishHeadOk]
    split
    · exact h
    · rename_i m rest heq
      simp only []
      have : s.buffer.length = rest.length + 1 := by rw [heq]; simp
      simp only [List.length_cons] at this
      omega
  | pubErr =>
    simp only [bridgeStep, publishHeadErr]
    split
    · exact h
    · simp only [dequeAppendLeft, List.length_take, List.length_cons]
      omega
  | commit => exact h

theorem bridgeRun_aux_buffer_le (cfg : BridgeConfig) (acts : List BridgeAct) :
    ∀ s : BridgeState, s.buffer.length ≤ cfg.buffer_max_size →
      (acts.foldl (bridgeStep cfg) s).buffer.length ≤ cfg.buffer_max_size := by
  induction acts with
  | nil => intro s h; exact h
  | cons a as ih =>
    intro s h
    exact ih (bridgeStep cfg s a) (bridgeStep_buffer_le cfg s a h)

end Bridge

end Pipeline

/-- C3: the streaming bridge's buffer is a deque with
`maxlen = buffer_max`, so its length never exceeds `buffer_max` along any
schedule; an append of a newly consumed message to a full buffer silently
evicts the oldest buffered message, and a head re-insert of a failed
publish into a full buffer silently evicts the newest; consequently there
is a schedule in which a message is consumed from Kafka and counted in
`messages_received`, is never published, and yet a later offset on the
same partition is committed. -/
theorem C3_bounded_buffer_eviction_loss :
    (∀ (cfg : Pipeline.Bridge.BridgeConfig) (acts : List Pipeline.Bridge.BridgeAct),
      (Pipeline.Bridge.bridgeRun cfg acts).buffer.length ≤ cfg.buffer_max_size) ∧
    (∀ (maxlen : Nat) (buf : List Pipeline.Bridge.BufferedMessage)
        (x : Pipeline.Bridge.BufferedMessage), buf.length = maxlen → 0 < maxlen →
      Pipeline.Bridge.dequeAppend maxlen buf x = buf.tail ++ [x]) ∧
    (∀ (maxlen : Nat) (buf : List Pipeline.Bridge.BufferedMessage)
        (x : Pipeline.Bridge.BufferedMessage), buf.length = maxlen → 0 < maxlen →
      Pipeline.Bridge.dequeAppendLeft maxlen buf x = x :: buf.dropLast) ∧
    (let cfg : Pipeline.Bridge.BridgeConfig :=
      { buffer_max_size := 1, buffer_resume_size := 0 }
     let s := Pipeline.Bridge.bridgeRun cfg
      [.consume ⟨0, 0⟩, .check [], .commit, .consume ⟨0, 1⟩, .check [], .pubOk, .commit]
     s.messages_received = 2 ∧ (0, 0) ∉ s.published ∧ s.committed = [(0, 2)]) := by
  refine ⟨?_, ?_, ?_, ?_⟩
  · intro cfg acts
    exact Pipeline.Bridge.bridgeRun_aux_buffer_le cfg acts {} (by simp)
  · intro maxlen buf x hlen hpos
    simp only [Pipeline.Bridge.dequeAppend, List.length_append, List.length_cons,
      List.length_nil]
    rw [show buf.length + (0 + 1) - maxlen = 1 by omega,
      List.drop_append_of_le_length (by omega), List.drop_one]
  · intro maxlen buf x hlen hpos
    obtain ⟨k, hk⟩ : ∃ k, maxlen = k + 1 := ⟨maxlen - 1, by omega⟩
    subst hk
    simp only [Pipeline.Bridge.dequeAppendLeft, List.take_succ_cons]
    rw [List.dropLast_eq_take, hlen]
    simp
  · decide

/-- Witness for C3: concrete full-buffer evictions obtained from the
theorem at `maxlen = 2`. -/
theorem C3_bounded_buffer_eviction_loss_witness :
    Pipeline.Bridge.dequeAppend 2 [⟨0, 0⟩, ⟨0, 1⟩] ⟨0, 2⟩ =
      ([⟨0, 1⟩, ⟨0, 2⟩] : List Pipeline.Bridge.BufferedMessage) ∧
    Pipeline.Bridge.dequeAppendLeft 2 [⟨0, 0⟩, ⟨0, 1⟩] ⟨0, 2⟩ =
      ([⟨0, 2⟩, ⟨0, 0⟩] : List Pipeline.Bridge.BufferedMessage) := by
  constructor
  · exact (C3_bounded_buffer_eviction_loss.2.1 2 [⟨0, 0⟩, ⟨0, 1⟩] ⟨0, 2⟩ rfl
      (by decide)).trans (by decide)
  · exact (C3_bounded_buffer_eviction_loss.2.2.1 2 [⟨0, 0⟩, ⟨0, 1⟩] ⟨0, 2⟩ rfl
      (by decide)).trans (by decide)

/-- C9 counterexample: with a full buffer and an empty
`consumer.assignment()`, `_check_backpressure` pauses nothing and leaves
the paused flag clear, although the claim requires the pause
unconditionally. -/
theorem C9_counterexample_empty_assignment :
    let cfg : Pipeline.Bridge.BridgeConfig :=
      { buffer_max_size := 2, buffer_resume_size := 1 }
    let s : Pipeline.Bridge.BridgeState := { buffer := [⟨0, 0⟩, ⟨0, 1⟩] }
    s.paused = false ∧ cfg.buffer_max_size ≤ s.buffer.length ∧
      (Pipeline.Bridge.checkBackpressure cfg s []).1.paused = false ∧
      (Pipeline.Bridge.checkBackpressure cfg s []).2 = Option.none := by decide

/-- C9 (amended): provided the consumer has a non-empty partition
assignment, a backpressure check on an unpaused state with occupancy
`≥ buffer_max` (equality suffices) pauses the assigned partitions and sets
the flag; on a paused state with occupancy `≤ buffer_resume` it resumes
them and clears the flag; and while the flag is set the ingest step does
not poll (the state, including the poll counter, is unchanged). -/
theorem C9_backpressure_amended (cfg : Pipeline.Bridge.BridgeConfig)
    (s : Pipeline.Bridge.BridgeState) (parts : List Nat) (hne : parts ≠ []) :
    (s.paused = false → cfg.buffer_max_size ≤ s.buffer.length →
      (Pipeline.Bridge.checkBackpressure cfg s parts).1.paused = true ∧
      (Pipeline.Bridge.checkBackpressure cfg s parts).2 = some (.pause parts)) ∧
    (s.paused = true → s.buffer.length ≤ cfg.buffer_resume_size →
      (Pipeline.Bridge.checkBackpressure cfg s parts).1.paused = false ∧
      (Pipeline.Bridge.checkBackpressure cfg s parts).2 = some (.resume parts)) ∧
    (s.paused = true → ∀ m, Pipeline.Bridge.consumeMessage cfg s m = s) := by
  refine ⟨?_, ?_, ?_⟩
  · intro hp hocc
    simp [Pipeline.Bridge.checkBackpressure, hp, hocc, hne]
  · intro hp hocc
    have : ¬(s.paused = false ∧ cfg.buffer_max_size ≤ s.buffer.length) := by
      simp [hp]
    simp [Pipeline.Bridge.checkBackpressure, this, hp, hocc, hne]
  · intro hp m
    simp [Pipeline.Bridge.consumeMessage, hp]

/-- Witness for C9 (amended) at a concrete state: occupancy exactly at
`buffer_max = 2` pauses; a paused state at `buffer_resume = 1` resumes;
a paused ingest step is a no-op. -/
theorem C9_backpressure_amended_witness :
    (Pipeline.Bridge.checkBackpressure
        { buffer_max_size := 2, buffer_resume_size := 1 }
        { buffer := [⟨0, 0⟩, ⟨0, 1⟩] } [0]).1.paused = true ∧
    (Pipeline.Bridge.checkBackpressure
        { buffer_max_size := 2, buffer_resume_size := 1 }
        { buffer := [⟨0, 0⟩], paused := true } [0]).2 =
      some (.resume [0]) ∧
    Pipeline.Bridge.consumeMessage
        { buffer_max_size := 2, buffer_resume_size := 1 }
        { buffer := [⟨0, 0⟩], paused := true } ⟨0, 7⟩ =
      { buffer := [⟨0, 0⟩], paused := true } := by
  refine ⟨?_, ?_, ?_⟩
  · exact ((C9_backpressure_amended { buffer_max_size := 2, buffer_resume_size := 1 }
      { buffer := [⟨0, 0⟩, ⟨0, 1⟩] } [0] (by decide)).1 rfl (by decide)).1
  · exact ((C9_backpressure_amended { buffer_max_size := 2, buffer_resume_size := 1 }
      { buffer := [⟨0, 0⟩], paused := true } [0] (by decide)).2.1 rfl (by decide)).2
  · exact (C9_backpressure_amended { buffer_max_size := 2, buffer_resume_size := 1 }
      { buffer := [⟨0, 0⟩], paused := true } [0] (by decide)).2.2 rfl ⟨0, 7⟩


/-- C10: event-id generation is a pure deterministic function.  For every
event the generated id is the MD5 hex digest of
`"<NAMESPACE>:event:<domain>:<source_system>:<source_event_id>"` with
`NAMESPACE` the fixed UUID string literal, `domain` defaulting to
`"markets"` and `source_event_id` falling back to `trade_id` when absent;
any two events agreeing on the resolved `(domain, source_system,
source_event_id)` triple yield the same hex digest. -/
theorem C10_event_id_deterministic :
    (∀ e : Pipeline.Reporter.Event,
      Pipeline.Reporter.generate_event_id e =
        Pipeline.Md5.md5Hex
          (Pipeline.Reporter.MARKETS_NAMESPACE ++ ":event:" ++ e.domain.getD "markets" ++
            ":" ++ e.source_system.getD "UNKNOWN" ++ ":" ++
            e.source_event_id.getD (e.trade_id.getD ""))) ∧
    (∀ e₁ e₂ : Pipeline.Reporter.Event,
      e₁.domain.getD "markets" = e₂.domain.getD "markets" →
      e₁.source_system.getD "UNKNOWN" = e₂.source_system.getD "UNKNOWN" →
      e₁.source_event_id.getD (e₁.trade_id.getD "") =
        e₂.source_event_id.getD (e₂.trade_id.getD "") →
      Pipeline.Reporter.generate_event_id e₁ = Pipeline.Reporter.generate_event_id e₂) := by
  constructor
  · intro e
    exact congrArg Pipeline.Md5.md5Hex rfl
  · intro e₁ e₂ hd hs hi
    refine congrArg Pipeline.Md5.md5Hex ?_
    unfold Pipeline.Reporter.idString
    rw [hd, hs, hi]

/-- Witness for C10: a concrete event (`source_system = "MX"`, falling back
to `trade_id = "T1"`, default domain) and a second event with the explicit
equivalent fields hash to the same digest, whose value matches
`hashlib.md5`. -/
theorem C10_event_id_deterministic_witness :
    Pipeline.Reporter.generate_event_id
        { source_system := some "MX", trade_id := some "T1" } =
      Pipeline.Reporter.generate_event_id
        { domain := some "markets", source_system := some "MX",
          source_event_id := some "T1" } ∧
    Pipeline.Reporter.generate_event_id
        { source_system := some "MX", trade_id := some "T1" } =
      "f4d8856cfd828a294d2a087521d9fe4e" := by
  constructor
  · exact C10_event_id_deterministic.2
      { source_system := some "MX", trade_id := some "T1" }
      { domain := some "markets", source_system := some "MX", source_event_id := some "T1" }
      (by decide) (by decide) (by decide)
  · decide

namespace Pipeline.Reporter

theorem toString_string (s : String) : toString s = s := rfl

theorem classifyAttempt_of_retryableB {o : AttemptOutcome} (h : retryableB o = true) :
    classifyAttempt o = .retryable (retryErrText o) := by
  unfold retryableB retryErrText at *
  cases hc : classifyAttempt o <;> simp [hc] at h ⊢

theorem delaySeq_eq (cfg : RetryConfig) (h0 : 0 ≤ cfg.initial_delay_seconds)
    (h1 : cfg.initial_delay_seconds ≤ cfg.max_delay_seconds)
    (h2 : 1 ≤ cfg.exponential_base) (k : Nat) :
    delaySeq cfg k =
      min (cfg.initial_delay_seconds * cfg.exponential_base ^ k) cfg.max_delay_seconds := by
  have hb : (0 : ℚ) ≤ cfg.exponential_base := le_trans zero_le_one h2
  induction k with
  | zero => simp [delaySeq, min_eq_left h1]
  | succ k ih =>
    rw [delaySeq, ih]
    rcases le_total (cfg.initial_delay_seconds * cfg.exponential_base ^ k)
      cfg.max_delay_seconds with h | h
    · rw [min_eq_left h, pow_succ, ← mul_assoc]
    · have hM : 0 ≤ cfg.max_delay_seconds := le_trans h0 h1
      have hMb : cfg.max_delay_seconds ≤ cfg.max_delay_seconds * cfg.exponential_base := by
        nlinarith
    /- both sides collapse to the cap -/
      have hnn : 0 ≤ cfg.initial_delay_seconds * cfg.exponential_base ^ k :=
        mul_nonneg h0 (pow_nonneg hb k)
      have h4 : cfg.max_delay_seconds ≤
          cfg.initial_delay_seconds * cfg.exponential_base ^ (k + 1) := by
        rw [pow_succ, ← mul_assoc]
        nlinarith
      rw [min_eq_right h, min_eq_right hMb, min_eq_right h4]

theorem submitAttempts_made_le (cfg : RetryConfig) (env : Nat → AttemptOutcome) :
    ∀ (remaining made : Nat) (delay : ℚ) (le : Option String) (sl : List ℚ),
      (submitAttempts cfg env remaining made delay le sl).attemptsMade ≤ made + remaining := by
  intro remaining
  induction remaining with
  | zero => intro made delay le sl; simp [submitAttempts]
  | succ n ih =>
    intro made delay le sl
    simp only [submitAttempts]
    split
    · simp
    · simp
    · split
      next h => subst h; simp [submitAttempts]
      next _ => exact le_trans (ih (made + 1) _ _ _) (by omega)

/-- After `j` retryable attempts (`j < max_attempts`), the retry loop is
at attempt `j + 1` with `max_attempts - j` attempts left, the delay
`delaySeq j`, the last retryable error, and the delays slept so far. -/
theorem submitAttempts_prefix (cfg : RetryConfig) (env : Nat → AttemptOutcome)
    (j : Nat) (hj : j < cfg.max_attempts)
    (hpre : ∀ a, 1 ≤ a → a ≤ j → retryableB (env a) = true) :
    submitWithRetry cfg env =
      submitAttempts cfg env (cfg.max_attempts - j) j (delaySeq cfg j)
        (if j = 0 then Option.none else some (retryErrText (env j)))
        (((List.range j).map (delaySeq cfg)).reverse) := by
  induction j with
  | zero => simp [submitWithRetry, delaySeq]
  | succ j ih =>
    have hj' : j < cfg.max_attempts := Nat.lt_of_succ_lt hj
    have hstep := ih hj' (fun a h1 h2 => hpre a h1 (Nat.le_succ_of_le h2))
    obtain ⟨m, hm⟩ : ∃ m, cfg.max_attempts - j = m + 1 :=
      ⟨cfg.max_attempts - j - 1, by omega⟩
    have hmne : m ≠ 0 := by omega
    have hr : classifyAttempt (env (j + 1)) = .retryable (retryErrText (env (j + 1))) :=
      classifyAttempt_of_retryableB (hpre (j + 1) (by omega) (le_refl _))
    rw [hstep, hm]
    simp only [submitAttempts, hr, hmne, if_neg hmne]
    have hms : m = cfg.max_attempts - (j + 1) := by omega
    rw [← hms]
    simp only [delaySeq, List.range_succ, List.map_append, List.map_cons, List.map_nil,
      List.reverse_append, List.reverse_cons, List.reverse_nil, List.nil_append,
      List.cons_append, Nat.succ_ne_zero, if_neg (Nat.succ_ne_zero j)]
    rfl

end Pipeline.Reporter

/-- C4 counterexample: a 204 response is a 2xx response, yet with the
default retry configuration five successive 204 responses are all treated
as retryable and the submission fails exhausted, contradicting "any 2xx
response yields success". -/
theorem C4_counterexample_http_204 :
    (200 ≤ 204 ∧ 204 < 300) ∧
    (Pipeline.Reporter.submitWithRetry {} (fun _ => .response 204 "")).success = false ∧
    (Pipeline.Reporter.submitWithRetry {} (fun _ => .response 204 "")).attemptsMade = 5 := by
  exact ⟨by omega, rfl, rfl⟩

/-- C4 (amended): for a submission whose duplicate check is negative, the
regulator POST is attempted at most `max_attempts` (default 5) times; a
response with status 200, 201 or 202 yields success (any other 2xx status
is treated as retryable); any other 4xx response except 429 terminates
immediately as a non-retryable failure; 5xx, 429, timeouts and request
errors are retried with inter-attempt delay
`min(initial * base ^ a, max_delay)`; and on exhaustion a dead-letter row
containing the failure reason and the original event payload is
appended. -/
theorem C4_retry_policy_amended {α : Type} (cfg : Pipeline.Reporter.RetryConfig)
    (env : Nat → Pipeline.Reporter.AttemptOutcome) (ev : α)
    (h0 : 0 ≤ cfg.initial_delay_seconds)
    (h1 : cfg.initial_delay_seconds ≤ cfg.max_delay_seconds)
    (h2 : 1 ≤ cfg.exponential_base) :
    ((Pipeline.Reporter.submitWithRetry cfg env).attemptsMade ≤ cfg.max_attempts) ∧
    (∀ k body, k < cfg.max_attempts →
      (∀ a, 1 ≤ a → a ≤ k → Pipeline.Reporter.retryableB (env a) = true) →
      Pipeline.Reporter.classifyAttempt (env (k + 1)) = .success body →
      Pipeline.Reporter.submitWithRetry cfg env =
        { success := true, error := Option.none, retryable := Option.none,
          attempts := Option.none, attemptsMade := k + 1,
          sleeps := (List.range k).map
            (fun i => min (cfg.initial_delay_seconds * cfg.exponential_base ^ i)
              cfg.max_delay_seconds) }) ∧
    (∀ k err, k < cfg.max_attempts →
      (∀ a, 1 ≤ a → a ≤ k → Pipeline.Reporter.retryableB (env a) = true) →
      Pipeline.Reporter.classifyAttempt (env (k + 1)) = .nonRetryable err →
      Pipeline.Reporter.submitWithRetry cfg env =
        { success := false, error := some err, retryable := some false,
          attempts := Option.none, attemptsMade := k + 1,
          sleeps := (List.range k).map
            (fun i => min (cfg.initial_delay_seconds * cfg.exponential_base ^ i)
              cfg.max_delay_seconds) }) ∧
    (1 ≤ cfg.max_attempts →
      (∀ a, 1 ≤ a → a ≤ cfg.max_attempts → Pipeline.Reporter.retryableB (env a) = true) →
      Pipeline.Reporter.submit_event cfg env false ev =
        { status := "error",
          dead_letter := some
            ("Max retries exceeded. Last error: " ++
                Pipeline.Reporter.retryErrText (env cfg.max_attempts),
              cfg.max_attempts, ev) }) := by
  refine ⟨?_, ?_, ?_, ?_⟩
  · exact le_trans (Pipeline.Reporter.submitAttempts_made_le cfg env cfg.max_attempts 0 _ _ _)
      (by omega)
  · intro k body hk hpre hsucc
    rw [Pipeline.Reporter.submitAttempts_prefix cfg env k hk hpre]
    obtain ⟨m, hm⟩ : ∃ m, cfg.max_attempts - k = m + 1 := ⟨cfg.max_attempts - k - 1, by omega⟩
    rw [hm]
    simp only [Pipeline.Reporter.submitAttempts, hsucc, List.reverse_reverse]
    congr 1
    exact List.map_congr_left fun i _ => Pipeline.Reporter.delaySeq_eq cfg h0 h1 h2 i
  · intro k err hk hpre hnr
    rw [Pipeline.Reporter.submitAttempts_prefix cfg env k hk hpre]
    obtain ⟨m, hm⟩ : ∃ m, cfg.max_attempts - k = m + 1 := ⟨cfg.max_attempts - k - 1, by omega⟩
    rw [hm]
    simp only [Pipeline.Reporter.submitAttempts, hnr, List.reverse_reverse]
    congr 1
    exact List.map_congr_left fun i _ => Pipeline.Reporter.delaySeq_eq cfg h0 h1 h2 i
  · intro hmax hpre
    have hj : cfg.max_attempts - 1 < cfg.max_attempts := by omega
    have hr := Pipeline.Reporter.submitAttempts_prefix cfg env (cfg.max_attempts - 1) hj
      (fun a ha1 ha2 => hpre a ha1 (by omega))
    have hrem : cfg.max_attempts - (cfg.max_attempts - 1) = 0 + 1 := by omega
    have hidx : cfg.max_attempts - 1 + 1 = cfg.max_attempts := by omega
    have hret : Pipeline.Reporter.classifyAttempt (env (cfg.max_attempts - 1 + 1)) =
        .retryable (Pipeline.Reporter.retryErrText (env (cfg.max_attempts - 1 + 1))) :=
      Pipeline.Reporter.classifyAttempt_of_retryableB
        (hpre _ (by omega) (by omega))
    rw [hidx] at hret
    rw [hrem] at hr
    unfold Pipeline.Reporter.submit_event
    simp only [Bool.false_eq_true, if_false, hr, Pipeline.Reporter.submitAttempts, hidx, hret,
      if_pos rfl, List.reverse_reverse]
    simp [Pipeline.Reporter.pyOptStr, Pipeline.Reporter.toString_string, String.append_empty]

/-- Witness for C4 (amended) with the default configuration: one 503 then
a 201 succeeds on attempt 2 after sleeping 1 s; five straight timeouts
exhaust the budget and append a dead-letter row carrying the failure
reason and the original payload. -/
theorem C4_retry_policy_amended_witness :
    Pipeline.Reporter.submitWithRetry {}
        (fun a => if a = 1 then .response 503 "oops" else .response 201 "ok") =
      { success := true, error := Option.none, retryable := Option.none,
        attempts := Option.none, attemptsMade := 2, sleeps := [1] } ∧
    Pipeline.Reporter.submit_event {} (fun _ => .timeout "t") false "payload" =
      { status := "error",
        dead_letter := some ("Max retries exceeded. Last error: Timeout: t", 5, "payload") } := by
  constructor
  · exact ((C4_retry_policy_amended {}
      (fun a => if a = 1 then .response 503 "oops" else .response 201 "ok") "payload"
      (by norm_num) (by norm_num) (by norm_num)).2.1 1 "ok" (by decide)
      (by intro a h1 h2; have ha : a = 1 := Nat.le_antisymm h2 h1; subst ha; rfl)
      (by decide)).trans
      (by norm_num [show List.range 1 = [0] from rfl, min_def,
        Pipeline.Reporter.RetryOutcome.mk.injEq])
  · exact ((C4_retry_policy_amended {} (fun _ => .timeout "t") "payload"
      (by norm_num) (by norm_num) (by norm_num)).2.2.2 (by decide)
      (by intro a _ _; rfl)).trans (by decide)

/-- C1 (code bug): the archival phase as `main` invokes it never consults
`validated_output_paths` as a path filter at all — `main` passes the set
where `Archiver.__init__` expects `run_start_time`, so
`_get_processed_files` raises `AttributeError` calling `.isoformat()` on
it while building the query parameters, before any staging object is
examined.  For every configuration, validated set, staging listing,
warehouse answer and archive prefix the phase aborts with that error and
moves nothing; in particular a staging object whose path is in the set is
not moved to `archive/YYYY-MM-DD/HHMM/<original path>`. -/
theorem C1_archival_phase_raises :
    (∀ (cfg : Pipeline.Orchestrator.ArchiveConfig) (paths : List String)
        (staging : List Pipeline.Orchestrator.Blob)
        (wh : Pipeline.Orchestrator.QueryResult) (pre : String),
      Pipeline.Orchestrator.mainArchivalPhase cfg paths staging wh pre =
        .error (.attributeError "set object has no attribute isoformat")) ∧
    (Pipeline.Orchestrator.mainArchivalPhase ⟨"stg", "arch"⟩
        ["gs://stg/trades/trades_20240115.parquet"]
        [⟨"trades/trades_20240115.parquet", some 0⟩]
        (.rows ["gs://stg/trades/trades_20240115.parquet"]) "2024-01-15/0400/" =
      .error (.attributeError "set object has no attribute isoformat")) := by
  exact ⟨fun cfg paths staging wh pre => rfl, rfl⟩

/-- C5 (code bug): because the archival step raises on every run (see the
C1 analysis), the exception handler in `main` always returns 1 — the exit
code is 1 even on a run with no validation failures and a successful dbt
build, where the claim requires 0.  The second conjunct evaluates such a
run. -/
theorem C5_exit_code_never_zero :
    (∀ (cfg : Pipeline.Orchestrator.ArchiveConfig)
        (validation : Pipeline.Orchestrator.ValidationRunResult)
        (dbt : Pipeline.Orchestrator.DbtRunResult)
        (staging : List Pipeline.Orchestrator.Blob)
        (wh : Pipeline.Orchestrator.QueryResult) (pre : String),
      Pipeline.Orchestrator.mainRun cfg validation dbt staging wh pre = 1) ∧
    (Pipeline.Orchestrator.mainRun ⟨"stg", "arch"⟩
        { files_passed := 3, files_failed := 0, total_rows := 100,
          validated_output_paths := ["gs://stg/trades/trades_20240115.parquet"] }
        { success := true } [] (.rows []) "2024-01-15/0400/" = 1) := by
  exact ⟨fun _ _ _ _ _ _ => rfl, rfl⟩

/-- C2 (code bug), evaluated at the failing input: staging verification
observes a zero-size artifact and the rewrite into the failed bucket
succeeds.  `_validate_file` fails the file with the reason text
`source file retained`, yet the final state has the source deleted from
landing (copied to the failed bucket and then deleted) — the claim, the
module docstring ("Retains source file on any failure") and the spec's
error table (file remains in landing; next run retries) all require the
source object to be retained. -/
theorem C2_verification_failure_moves_source :
    Pipeline.Validator.verify_staging_upload (.metadata (some 0)) = false ∧
    (Pipeline.Validator.validate_file "stg" "trades/t.csv"
        "trades/t_20240115_040000.parquet" "20240115_040000"
        { reload := .metadata (some 0) }).1.passed = false ∧
    (Pipeline.Validator.validate_file "stg" "trades/t.csv"
        "trades/t_20240115_040000.parquet" "20240115_040000"
        { reload := .metadata (some 0) }).1.failure_reason =
      some "Staging upload verification failed - source file retained" ∧
    (Pipeline.Validator.validate_file "stg" "trades/t.csv"
        "trades/t_20240115_040000.parquet" "20240115_040000"
        { reload := .metadata (some 0) }).2.sourceInLanding = false ∧
    (Pipeline.Validator.validate_file "stg" "trades/t.csv"
        "trades/t_20240115_040000.parquet" "20240115_040000"
        { reload := .metadata (some 0) }).2.failedCopy =
      some "trades/t.csv_20240115_040000" := by decide

/-- C7: for a file configured with a trailer control record whose last
row carries a parseable count at the zero-based `row_count_column` (an
index of 0 included), the trailer row is removed before loading, the
validation passes exactly when the remaining row count equals the
expected count, a mismatch produces exactly
`Row count mismatch: expected {expected}, got {actual}`, and on a
mismatch `load_file` moves the file to the failed area and returns before
anything is loaded or staged. -/
theorem C7_trailer_row_count (cols : List String) (rs : List (List (Option String)))
    (lastRow : List (Option String)) (c : Nat) (cell : String) (expected : Int)
    (existing : Option (List String)) (load_id : String)
    (hcell : lastRow[c]? = some (some cell))
    (hint : Pipeline.BasicOrch.pythonInt cell = some expected) :
    ((Pipeline.BasicOrch.process_with_trailer ⟨cols, rs ++ [lastRow]⟩ c).1 =
      ⟨cols, rs⟩) ∧
    ((Pipeline.BasicOrch.process_with_trailer ⟨cols, rs ++ [lastRow]⟩ c).2.valid = true ↔
      (rs.length : Int) = expected) ∧
    ((rs.length : Int) ≠ expected →
      (Pipeline.BasicOrch.process_with_trailer ⟨cols, rs ++ [lastRow]⟩ c).2.error =
        some ("Row count mismatch: expected " ++ toString expected ++ ", got " ++
          toString (rs.length : Int))) ∧
    ((rs.length : Int) ≠ expected →
      Pipeline.BasicOrch.load_file_trailer ⟨cols, rs ++ [lastRow]⟩ c existing load_id =
        .failedMoved ("Trailer validation: " ++
          ("Row count mismatch: expected " ++ toString expected ++ ", got " ++
            toString (rs.length : Int)))) := by
  have h1 : (rs ++ [lastRow]).getLast? = some lastRow := List.getLast?_concat _
  have h2 : (rs ++ [lastRow]).dropLast = rs := List.dropLast_concat
  have hmain : Pipeline.BasicOrch.process_with_trailer ⟨cols, rs ++ [lastRow]⟩ c =
      (⟨cols, rs⟩,
        if (rs.length : Int) = expected then
          { valid := true, expected_rows := some expected,
            actual_rows := some (rs.length : Int) }
        else
          { valid := false, expected_rows := some expected,
            actual_rows := some (rs.length : Int),
            error := some ("Row count mismatch: expected " ++ toString expected ++
              ", got " ++ toString (rs.length : Int)) }) := by
    by_cases he : (rs.length : Int) = expected
    · simp [Pipeline.BasicOrch.process_with_trailer, Pipeline.BasicOrch.pwtCore,
        h1, hcell, hint, h2, he]
    · simp [Pipeline.BasicOrch.process_with_trailer, Pipeline.BasicOrch.pwtCore,
        h1, hcell, hint, h2, he, Pipeline.Reporter.toString_string, String.append_empty]
  refine ⟨?_, ?_, ?_, ?_⟩
  · rw [hmain]
  · rw [hmain]
    by_cases he : (rs.length : Int) = expected <;> simp [he]
  · intro he
    rw [hmain]
    simp [he]
  · intro he
    unfold Pipeline.BasicOrch.load_file_trailer
    rw [hmain]
    simp [he]

/-- Witness for C7 at `row_count_column = 0`: a three-row frame whose
trailer declares 2 rows validates (2 data rows remain), and a trailer
declaring 100 rows over 2 data rows is failed with the exact message and
moves the file to the failed area unloaded. -/
theorem C7_trailer_row_count_witness :
    (Pipeline.BasicOrch.process_with_trailer
        ⟨["trade_id", "qty"],
          [[some "1", some "10"], [some "2", some "20"], [some "2", Option.none]]⟩
        0).2.valid = true ∧
    Pipeline.BasicOrch.load_file_trailer
        ⟨["trade_id", "qty"],
          [[some "1", some "10"], [some "2", some "20"], [some "100", Option.none]]⟩
        0 (some ["trade_id", "qty"]) "lid" =
      .failedMoved "Trailer validation: Row count mismatch: expected 100, got 2" := by
  constructor
  · exact (C7_trailer_row_count ["trade_id", "qty"]
      [[some "1", some "10"], [some "2", some "20"]] [some "2", Option.none] 0 "2" 2
      (some ["trade_id", "qty"]) "lid" rfl (by decide)).2.1.mpr (by decide)
  · exact ((C7_trailer_row_count ["trade_id", "qty"]
      [[some "1", some "10"], [some "2", some "20"]] [some "100", Option.none] 0 "100" 100
      (some ["trade_id", "qty"]) "lid" rfl (by decide)).2.2.2 (by decide)).trans (by decide)

namespace Pipeline.BasicOrch

theorem withColumnConst_append (df : DataFrame) (name : String) (v : Option String)
    (h : name ∉ df.columns) :
    withColumnConst df name v = ⟨df.columns ++ [name], df.rows.map (fun r => r ++ [v])⟩ := by
  simp [withColumnConst, h]

theorem withColumnSeries_append {β : Type} (cols : List String) (l : List β)
    (g : β → List (Option String)) (f : β → Option String) (name : String)
    (h : name ∉ cols) :
    withColumnSeries ⟨cols, l.map g⟩ name (l.map f) =
      ⟨cols ++ [name], l.map (fun x => g x ++ [f x])⟩ := by
  simp only [withColumnSeries, h, if_neg, List.zip_map', List.map_map]
  rfl

theorem addedCols_mem (c : String) : ∀ (l seen : List String),
    c ∈ addedCols l seen ↔ c ∈ l ∧ c ∉ seen := by
  intro l
  induction l with
  | nil => intro seen; simp [addedCols]
  | cons a rest ih =>
    intro seen
    by_cases ha : a ∈ seen <;> by_cases hca : c = a
    · subst hca; simp [addedCols, ha, ih]
    · simp [addedCols, ha, ih, hca]
    · subst hca; simp [addedCols, ha, ih]
    · simp only [addedCols, if_neg ha, List.mem_cons, hca, false_or, ih,
        List.mem_append, List.mem_singleton]
      tauto

theorem foldMissing_eq : ∀ (l cols : List String) (rows : List (List (Option String))),
    List.foldl
        (fun d col => if col ∈ d.columns then d else withColumnConst d col Option.none)
        (⟨cols, rows⟩ : DataFrame) l =
      ⟨cols ++ addedCols l cols,
        rows.map (fun r => r ++ List.replicate (addedCols l cols).length Option.none)⟩ := by
  intro l
  induction l with
  | nil => intro cols rows; simp [addedCols]
  | cons a rest ih =>
    intro cols rows
    rw [List.foldl_cons]
    by_cases ha : a ∈ cols
    · have hstep : (if a ∈ (⟨cols, rows⟩ : DataFrame).columns then (⟨cols, rows⟩ : DataFrame)
          else withColumnConst ⟨cols, rows⟩ a Option.none) = ⟨cols, rows⟩ := if_pos ha
      rw [hstep, ih]
      simp [addedCols, ha]
    · have hstep : (if a ∈ (⟨cols, rows⟩ : DataFrame).columns then (⟨cols, rows⟩ : DataFrame)
          else withColumnConst ⟨cols, rows⟩ a Option.none) =
          ⟨cols ++ [a], rows.map (fun r => r ++ [Option.none])⟩ := by
        rw [if_neg ha, withColumnConst_append _ _ _ ha]
      rw [hstep, ih]
      simp only [addedCols, if_neg ha, List.map_map, List.length_cons]
      congr 1
      · simp [List.append_assoc]
      · apply List.map_congr_left
        intro r _
        simp [Function.comp, List.append_assoc, List.replicate_succ]

end Pipeline.BasicOrch

namespace Pipeline.BasicOrch

theorem lookupCell_cons_self (cols : List String) (vs : List (Option String))
    (c : String) (v : Option String) :
    lookupCell (c :: cols) (v :: vs) c = v := by
  simp [lookupCell, List.lookup]

theorem lookupCell_cons_ne (cols : List String) (vs : List (Option String))
    (a c : String) (v : Option String) (h : c ≠ a) :
    lookupCell (a :: cols) (v :: vs) c = lookupCell cols vs c := by
  simp [lookupCell, List.zip, List.zip_cons_cons, List.lookup, beq_false_of_ne h]

theorem lookupCell_append_right (c : String) :
    ∀ (cols₁ : List String) (r₁ : List (Option String)) (cols₂ : List String)
      (r₂ : List (Option String)), cols₁.length = r₁.length → c ∉ cols₁ →
      lookupCell (cols₁ ++ cols₂) (r₁ ++ r₂) c = lookupCell cols₂ r₂ c := by
  intro cols₁
  induction cols₁ with
  | nil =>
    intro r₁ cols₂ r₂ hlen _
    have : r₁ = [] := List.eq_nil_of_length_eq_zero hlen.symm
    subst this; rfl
  | cons a cs ih =>
    intro r₁ cols₂ r₂ hlen hc
    match r₁ with
    | [] => simp at hlen
    | v :: vs =>
      have hne : c ≠ a := fun h => hc (h ▸ List.mem_cons_self a cs)
      rw [List.cons_append, List.cons_append, lookupCell_cons_ne _ _ _ _ _ hne]
      exact ih vs cols₂ r₂ (by simpa using hlen) (fun h => hc (List.mem_cons_of_mem a h))

theorem lookupCell_replicate_none (c : String) :
    ∀ (cols : List String) (n : Nat),
      lookupCell cols (List.replicate n Option.none) c = Option.none := by
  intro cols
  induction cols with
  | nil => intro n; rfl
  | cons a cs ih =>
    intro n
    match n with
    | 0 => simp [lookupCell]
    | m + 1 =>
      rw [List.replicate_succ]
      by_cases h : c = a
      · subst h; exact lookupCell_cons_self cs _ c Option.none
      · rw [lookupCell_cons_ne _ _ _ _ _ h]; exact ih m

/-- Closed form of `prepare_dataframe` when the table exists: the known
columns in batch order, then `_extra`, then the missing table columns;
each row carries the projected known cells, the `_extra` JSON (or NULL),
and NULLs for the missing columns. -/
theorem prepare_dataframe_some (df : DataFrame) (existing : List String)
    (hx : "_extra" ∉ df.columns) :
    prepare_dataframe df (some existing) =
      ⟨knownCols df existing ++ "_extra" :: missingColsOf df existing,
        df.rows.map (fun r =>
          (knownCols df existing).map (lookupCell df.columns r) ++
            extraVal df (extraCols df existing) r ::
              List.replicate (missingColsOf df existing).length Option.none)⟩ := by
  have hknown : "_extra" ∉ knownCols df existing := by
    intro h
    exact hx (List.mem_of_mem_filter h)
  have hdf1 :
      (if extraCols df existing ≠ [] then
        withColumnSeries (selectCols df (knownCols df existing)) "_extra"
          (df.rows.map (fun r => extraVal df (extraCols df existing) r))
      else withColumnConst (selectCols df (knownCols df existing)) "_extra" Option.none) =
        ⟨knownCols df existing ++ ["_extra"],
          df.rows.map (fun r =>
            (knownCols df existing).map (lookupCell df.columns r) ++
              [extraVal df (extraCols df existing) r])⟩ := by
    by_cases hex : extraCols df existing = []
    · rw [if_neg (by simp [hex])]
      show withColumnConst
          ⟨knownCols df existing,
            df.rows.map (fun r => (knownCols df existing).map (lookupCell df.columns r))⟩
          "_extra" Option.none = _
      rw [withColumnConst_append _ _ _ hknown]
      simp [List.map_map, Function.comp, extraVal, hex]
    · rw [if_pos hex]
      show withColumnSeries
          ⟨knownCols df existing,
            df.rows.map (fun r => (knownCols df existing).map (lookupCell df.columns r))⟩
          "_extra" (df.rows.map (fun r => extraVal df (extraCols df existing) r)) = _
      rw [withColumnSeries_append _ _ _ _ _ hknown]
  have hunfold : prepare_dataframe df (some existing) =
      List.foldl
        (fun d col => if col ∈ d.columns then d else withColumnConst d col Option.none)
        (if extraCols df existing ≠ [] then
          withColumnSeries (selectCols df (knownCols df existing)) "_extra"
            (df.rows.map (fun r => extraVal df (extraCols df existing) r))
        else withColumnConst (selectCols df (knownCols df existing)) "_extra" Option.none)
        existing := rfl
  rw [hunfold, hdf1, foldMissing_eq]
  simp only [missingColsOf, List.map_map]
  congr 1
  · simp [List.append_assoc]
  · apply List.map_congr_left
    intro r _
    simp [Function.comp, List.append_assoc, List.replicate_succ]

end Pipeline.BasicOrch

/-- C8: the schema-drift loader.  On a first load (no existing table) the
frame keeps all batch columns and gains an `_extra` column that is NULL in
every row.  Against an existing table, the output's data columns are
exactly the existing table columns: batch columns new to the table are
dropped from the projection and serialized per-row into one JSON object in
`_extra` (NULL when there are none), and each existing column missing from
the batch is appended as an all-NULL column; afterwards every row is
tagged with the load's `_load_id`. -/
theorem C8_schema_drift_loader (df : Pipeline.BasicOrch.DataFrame)
    (existing : List String) (load_id : String)
    (hx : "_extra" ∉ df.columns) (hxe : "_extra" ∉ existing)
    (hl1 : "_load_id" ∉ df.columns) (hl2 : "_load_id" ∉ existing) :
    (Pipeline.BasicOrch.prepare_dataframe df Option.none =
      ⟨df.columns ++ ["_extra"], df.rows.map (fun r => r ++ [Option.none])⟩) ∧
    (Pipeline.BasicOrch.prepare_dataframe df (some existing) =
      ⟨Pipeline.BasicOrch.knownCols df existing ++
          "_extra" :: Pipeline.BasicOrch.missingColsOf df existing,
        df.rows.map (fun r =>
          (Pipeline.BasicOrch.knownCols df existing).map
              (Pipeline.BasicOrch.lookupCell df.columns r) ++
            Pipeline.BasicOrch.extraVal df (Pipeline.BasicOrch.extraCols df existing) r ::
              List.replicate (Pipeline.BasicOrch.missingColsOf df existing).length
                Option.none)⟩) ∧
    (∀ c, c ∈ (Pipeline.BasicOrch.prepare_dataframe df (some existing)).columns ↔
      (c ∈ existing ∨ c = "_extra")) ∧
    (Pipeline.BasicOrch.columnVals
        (Pipeline.BasicOrch.prepare_dataframe df (some existing)) "_extra" =
      df.rows.map
        (fun r =>
          Pipeline.BasicOrch.extraVal df (Pipeline.BasicOrch.extraCols df existing) r)) ∧
    (∀ c, c ∈ existing → c ∉ df.columns →
      Pipeline.BasicOrch.columnVals
          (Pipeline.BasicOrch.prepare_dataframe df (some existing)) c =
        df.rows.map (fun _ => Option.none)) ∧
    ((Pipeline.BasicOrch.tagLoadId
        (Pipeline.BasicOrch.prepare_dataframe df (some existing)) load_id).rows =
      (Pipeline.BasicOrch.prepare_dataframe df (some existing)).rows.map
        (fun r => r ++ [some load_id]) ∧
     (Pipeline.BasicOrch.tagLoadId
        (Pipeline.BasicOrch.prepare_dataframe df (some existing)) load_id).columns =
      (Pipeline.BasicOrch.prepare_dataframe df (some existing)).columns ++ ["_load_id"]) ∧
    ((Pipeline.BasicOrch.tagLoadId
        (Pipeline.BasicOrch.prepare_dataframe df Option.none) load_id).rows =
      (Pipeline.BasicOrch.prepare_dataframe df Option.none).rows.map
        (fun r => r ++ [some load_id])) := by
  have hknown : "_extra" ∉ Pipeline.BasicOrch.knownCols df existing := by
    intro h; exact hx (List.mem_of_mem_filter h)
  have hfirst : Pipeline.BasicOrch.prepare_dataframe df Option.none =
      ⟨df.columns ++ ["_extra"], df.rows.map (fun r => r ++ [Option.none])⟩ := by
    show Pipeline.BasicOrch.withColumnConst df "_extra" Option.none = _
    exact Pipeline.BasicOrch.withColumnConst_append df "_extra" Option.none hx
  have hsome := Pipeline.BasicOrch.prepare_dataframe_some df existing hx
  have hmem : ∀ c, c ∈ (Pipeline.BasicOrch.prepare_dataframe df (some existing)).columns ↔
      (c ∈ existing ∨ c = "_extra") := by
    intro c
    rw [hsome]
    have hne : c = "_extra" → c ∉ existing := fun he => he ▸ hxe
    simp only [List.mem_append, List.mem_cons,
      Pipeline.BasicOrch.missingColsOf, Pipeline.BasicOrch.addedCols_mem,
      Pipeline.BasicOrch.knownCols, List.mem_filter, List.mem_singleton,
      decide_eq_true_eq]
    constructor
    · rintro (⟨_, h2⟩ | h2 | ⟨h2, _⟩)
      · exact Or.inl h2
      · exact Or.inr h2
      · exact Or.inl h2
    · rintro (h2 | h2)
      · by_cases hk : c ∈ df.columns ∧ c ∈ existing
        · exact Or.inl hk
        · refine Or.inr (Or.inr ⟨h2, ?_⟩)
          intro hcon
          rcases hcon with ⟨h3, _⟩ | h3 | h3
          · exact hk ⟨h3, h2⟩
          · exact hne h3 h2
          · exact absurd h3 (List.not_mem_nil c)
      · exact Or.inr (Or.inl h2)
  refine ⟨hfirst, hsome, hmem, ?_, ?_, ?_, ?_⟩
  · rw [hsome]
    simp only [Pipeline.BasicOrch.columnVals, List.map_map]
    apply List.map_congr_left
    intro r _
    simp only [Function.comp]
    rw [Pipeline.BasicOrch.lookupCell_append_right _ _ _ _ _ (by simp) hknown,
      Pipeline.BasicOrch.lookupCell_cons_self]
  · intro c hce hcd
    have hck : c ∉ Pipeline.BasicOrch.knownCols df existing := by
      intro h; exact hcd (List.mem_of_mem_filter h)
    have hcx : c ≠ "_extra" := fun he => hxe (he ▸ hce)
    rw [hsome]
    simp only [Pipeline.BasicOrch.columnVals, List.map_map]
    apply List.map_congr_left
    intro r _
    simp only [Function.comp]
    rw [Pipeline.BasicOrch.lookupCell_append_right _ _ _ _ _ (by simp) hck,
      Pipeline.BasicOrch.lookupCell_cons_ne _ _ _ _ _ hcx,
      Pipeline.BasicOrch.lookupCell_replicate_none]
  · have hnotin : "_load_id" ∉
        (Pipeline.BasicOrch.prepare_dataframe df (some existing)).columns := by
      rw [hmem]
      rintro (h | h)
      · exact hl2 h
      · exact absurd h (by decide)
    rw [Pipeline.BasicOrch.tagLoadId,
      Pipeline.BasicOrch.withColumnConst_append _ _ _ hnotin]
    exact ⟨rfl, rfl⟩
  · have hnotin : "_load_id" ∉
        (Pipeline.BasicOrch.prepare_dataframe df Option.none).columns := by
      rw [hfirst]
      simp only [List.mem_append, List.mem_singleton]
      rintro (h | h)
      · exact hl1 h
      · exact absurd h (by decide)
    rw [Pipeline.BasicOrch.tagLoadId,
      Pipeline.BasicOrch.withColumnConst_append _ _ _ hnotin]

/-- Witness for C8: a two-row batch with columns `a,b,c,d` loaded against
a table with columns `a,b,e`: the output keeps `a,b`, serializes `c,d`
per row into `_extra` (with `null` for a null cell), appends `e` as
all-NULL, and tagging appends `_load_id` to every row. -/
theorem C8_schema_drift_loader_witness :
    Pipeline.BasicOrch.prepare_dataframe
        ⟨["a", "b", "c", "d"],
          [[some "1", some "2", some "3", some "4"],
           [some "5", Option.none, some "7", Option.none]]⟩
        (some ["a", "b", "e"]) =
      ⟨["a", "b", "_extra", "e"],
        [[some "1", some "2", some "\x7b\"c\": \"3\", \"d\": \"4\"\x7d", Option.none],
         [some "5", Option.none, some "\x7b\"c\": \"7\", \"d\": null\x7d",
          Option.none]]⟩ ∧
    Pipeline.BasicOrch.columnVals
        (Pipeline.BasicOrch.prepare_dataframe
          ⟨["a", "b", "c", "d"],
            [[some "1", some "2", some "3", some "4"],
             [some "5", Option.none, some "7", Option.none]]⟩
          (some ["a", "b", "e"])) "e" =
      [Option.none, Option.none] := by
  constructor
  · exact ((C8_schema_drift_loader
      ⟨["a", "b", "c", "d"],
        [[some "1", some "2", some "3", some "4"],
         [some "5", Option.none, some "7", Option.none]]⟩
      ["a", "b", "e"] "lid" (by decide) (by decide) (by decide) (by decide)).2.1).trans
      (by decide)
  · exact ((C8_schema_drift_loader
      ⟨["a", "b", "c", "d"],
        [[some "1", some "2", some "3", some "4"],
         [some "5", Option.none, some "7", Option.none]]⟩
      ["a", "b", "e"] "lid" (by decide) (by decide) (by decide) (by decide)).2.2.2.2.1
      "e" (by decide) (by decide)).trans (by decide)

namespace Pipeline.Rules

theorem evaluate_rule_eq (env : EvalEnv) (rule : String) (row : Row) (n : Nat) :
    (evaluate env rule row n).rule = stripStr rule := rfl

theorem evaluate_empty_passed (env : EvalEnv) (row : Row) (n : Nat) :
    (evaluate env "" row n).passed = true := rfl

theorem opt_isSome_false {α : Type} {o : Option α} (h : o.isSome = false) :
    o = Option.none := by
  cases o <;> simp_all

/-- The severity filter of `_apply_validation_rules` quarantines the row
exactly when some spec entry with severity `error` and a rule string equal
to a stripped failing rule exists; under the no-surrounding-whitespace
hypothesis this is exactly "some error-severity rule fails". -/
theorem apply_validation_rules_false_iff (env : EvalEnv) (rules : List RuleSpec)
    (row : Row) (n : Nat)
    (htrim : ∀ r ∈ rules, stripStr (r.rule.getD "") = r.rule.getD "") :
    (apply_validation_rules env rules row n).1 = false ↔
      ∃ r ∈ rules, r.severity = some "error" ∧
        (evaluate env (r.rule.getD "") row n).passed = false := by
  have key : ((evaluate_all env rules row n).filter
      (fun f => rules.any
        (fun r => r.severity == some "error" && r.rule == some f.rule)) ≠ []) ↔
      ∃ r ∈ rules, r.severity = some "error" ∧
        (evaluate env (r.rule.getD "") row n).passed = false := by
    constructor
    · intro hne
      obtain ⟨fl, hfl⟩ := List.exists_mem_of_ne_nil _ hne
      rw [List.mem_filter] at hfl
      obtain ⟨hmemF, hcond⟩ := hfl
      unfold evaluate_all at hmemF
      rw [List.mem_filter] at hmemF
      obtain ⟨hmemM, hnp⟩ := hmemF
      rw [List.mem_map] at hmemM
      obtain ⟨r0, hr0mem, hr0eq⟩ := hmemM
      rw [List.any_eq_true] at hcond
      obtain ⟨r1, hr1mem, hr1c⟩ := hcond
      rw [Bool.and_eq_true, beq_iff_eq, beq_iff_eq] at hr1c
      obtain ⟨hsev, hrul⟩ := hr1c
      refine ⟨r1, hr1mem, hsev, ?_⟩
      have h1 : fl.rule = r0.rule.getD "" := by
        rw [← hr0eq, evaluate_rule_eq]
        exact htrim r0 hr0mem
      have h2 : r1.rule.getD "" = r0.rule.getD "" := by
        rw [hrul, Option.getD_some, h1]
      rw [h2, hr0eq]
      simpa using hnp
    · rintro ⟨r, hrmem, hsev, hfail⟩
      have hrsome : r.rule = some (r.rule.getD "") := by
        cases hr : r.rule with
        | some s => rfl
        | none =>
          exfalso
          rw [hr] at hfail
          rw [show (Option.none : Option String).getD "" = "" from rfl] at hfail
          rw [evaluate_empty_passed env row n] at hfail
          exact absurd hfail (by decide)
      apply List.ne_nil_of_mem (a := evaluate env (r.rule.getD "") row n)
      rw [List.mem_filter]
      refine ⟨?_, ?_⟩
      · unfold evaluate_all
        rw [List.mem_filter]
        refine ⟨List.mem_map.2 ⟨r, hrmem, rfl⟩, by simp [hfail]⟩
      · rw [List.any_eq_true]
        refine ⟨r, hrmem, ?_⟩
        rw [Bool.and_eq_true, beq_iff_eq, beq_iff_eq]
        refine ⟨hsev, ?_⟩
        rw [evaluate_rule_eq, htrim r hrmem]
        exact hrsome
  simp only [apply_validation_rules]
  split
  next hemp =>
    have hnil : rules = [] := by simpa using hemp
    subst hnil
    simp
  next hemp =>
    split
    next hne =>
      simpa using key.mp hne
    next hne =>
      have hno : ¬ ∃ r ∈ rules, r.severity = some "error" ∧
          (evaluate env (r.rule.getD "") row n).passed = false :=
        fun hex => hne (key.mpr hex)
      simpa using hno

end Pipeline.Rules

/-- C6 counterexample: a row-level rule written with surrounding whitespace
(`" quantity > 0 "`, severity `error`) fails on a row with quantity = -1
(the evaluator strips the rule before evaluating it), yet
`_apply_validation_rules` keeps the row, because the severity filter in
`parsers.py` compares the stripped rule string stored in the result against
the raw rule string of the spec entry and finds no error-severity match.
The spec sentence "rows failing an error-severity rule are quarantined" is
therefore false as stated. -/
theorem C6_counterexample_whitespace_rule :
    (Pipeline.Rules.evaluate ⟨fun _ _ => false, fun _ => Option.none, 0⟩
        " quantity > 0 " [("quantity", Pipeline.Rules.Value.int (-1))] 2).passed = false ∧
    (Pipeline.Rules.evaluate ⟨fun _ _ => false, fun _ => Option.none, 0⟩
        " quantity > 0 " [("quantity", Pipeline.Rules.Value.int (-1))] 2).rule
      = "quantity > 0" ∧
    Pipeline.Rules.apply_validation_rules ⟨fun _ _ => false, fun _ => Option.none, 0⟩
        [{ rule := some " quantity > 0 ", severity := some "error" }]
        [("quantity", Pipeline.Rules.Value.int (-1))] 2
      = (true, Option.none) := by
  refine ⟨?_, ?_, ?_⟩ <;> decide

/-- C6 (amended): provided every configured rule string carries no leading or
trailing whitespace, `_apply_validation_rules` quarantines a row (returns
`false` in its first component) exactly when some configured rule of
severity `error` fails on that row; rules of any other severity never
quarantine. A rule string matching none of the seven recognised patterns
always passes, with message "Unrecognised rule syntax: " followed by the
stripped rule. -/
theorem C6_error_severity_quarantine (env : Pipeline.Rules.EvalEnv)
    (rules : List Pipeline.Rules.RuleSpec) (row : Pipeline.Rules.Row) (n : Nat)
    (htrim : ∀ r ∈ rules,
      Pipeline.Rules.stripStr (r.rule.getD "") = r.rule.getD "") :
    ((Pipeline.Rules.apply_validation_rules env rules row n).1 = false ↔
      ∃ r ∈ rules, r.severity = some "error" ∧
        (Pipeline.Rules.evaluate env (r.rule.getD "") row n).passed = false) ∧
    (∀ rule : String,
      Pipeline.Rules.matchesAnyPattern (Pipeline.Rules.stripStr rule) = false →
      Pipeline.Rules.evaluate env rule row n =
        ⟨true, Pipeline.Rules.stripStr rule,
          some ("Unrecognised rule syntax: " ++ Pipeline.Rules.stripStr rule)⟩) := by
  refine ⟨Pipeline.Rules.apply_validation_rules_false_iff env rules row n htrim, ?_⟩
  intro rule hnm
  unfold Pipeline.Rules.evaluate
  simp_all [Pipeline.Rules.matchesAnyPattern]

theorem C6_error_severity_quarantine_witness :
    (∀ r ∈ [({ rule := some "quantity > 0", severity := some "error" } :
        Pipeline.Rules.RuleSpec)],
      Pipeline.Rules.stripStr (r.rule.getD "") = r.rule.getD "") ∧
    (Pipeline.Rules.apply_validation_rules ⟨fun _ _ => false, fun _ => Option.none, 0⟩
        [{ rule := some "quantity > 0", severity := some "error" }]
        [("quantity", Pipeline.Rules.Value.int (-1))] 2).1 = false ∧
    (Pipeline.Rules.apply_validation_rules ⟨fun _ _ => false, fun _ => Option.none, 0⟩
        [{ rule := some "quantity > 0", severity := some "warning" }]
        [("quantity", Pipeline.Rules.Value.int (-1))] 2).1 = true ∧
    Pipeline.Rules.evaluate ⟨fun _ _ => false, fun _ => Option.none, 0⟩
        "frobnicate the widgets" [("quantity", Pipeline.Rules.Value.int (-1))] 2
      = ⟨true, "frobnicate the widgets",
          some ("Unrecognised rule syntax: " ++ "frobnicate the widgets")⟩ := by
  have htrim1 : ∀ r ∈ [({ rule := some "quantity > 0", severity := some "error" } :
      Pipeline.Rules.RuleSpec)],
      Pipeline.Rules.stripStr (r.rule.getD "") = r.rule.getD "" := by decide
  have htrim2 : ∀ r ∈ [({ rule := some "quantity > 0", severity := some "warning" } :
      Pipeline.Rules.RuleSpec)],
      Pipeline.Rules.stripStr (r.rule.getD "") = r.rule.getD "" := by decide
  have h1 := (C6_error_severity_quarantine ⟨fun _ _ => false, fun _ => Option.none, 0⟩
      [{ rule := some "quantity > 0", severity := some "error" }]
      [("quantity", Pipeline.Rules.Value.int (-1))] 2 htrim1).1
  have h2 := (C6_error_severity_quarantine ⟨fun _ _ => false, fun _ => Option.none, 0⟩
      [{ rule := some "quantity > 0", severity := some "warning" }]
      [("quantity", Pipeline.Rules.Value.int (-1))] 2 htrim2).1
  have h3 := (C6_error_severity_quarantine ⟨fun _ _ => false, fun _ => Option.none, 0⟩
      [{ rule := some "quantity > 0", severity := some "error" }]
      [("quantity", Pipeline.Rules.Value.int (-1))] 2 htrim1).2
      "frobnicate the widgets" (by decide)
  refine ⟨htrim1, ?_, ?_, ?_⟩
  · exact h1.mpr ⟨_, List.mem_singleton.2 rfl, rfl, by decide⟩
  · cases hb : (Pipeline.Rules.apply_validation_rules
        ⟨fun _ _ => false, fun _ => Option.none, 0⟩
        [{ rule := some "quantity > 0", severity := some "warning" }]
        [("quantity", Pipeline.Rules.Value.int (-1))] 2).1 with
    | false =>
      exfalso
      obtain ⟨r, hrmem, hsev, _⟩ := h2.mp hb
      rw [List.mem_singleton] at hrmem
      subst hrmem
      exact absurd hsev (by decide)
    | true => rfl
  · rw [h3]
    rfl
